import Mathlib

/-!
# Verification of the CSV-driven level-sequence generator

This development shallowly embeds the timeline-synthesis engine of
`src/unreal/render/Core/Python/create_level_sequences_csv.py`.

Conventions of the embedding:
* Python strings are Lean `String`s; `str.split(sep)`, `str.replace`,
  `str.startswith`/`endswith` and `int()`/`float()` parsing are
  re-implemented structurally over character lists (`pySplitOn`,
  `pyReplace`, ...) with Python's semantics (split keeps empty pieces
  and yields `[""]` on the empty string; replace is non-overlapping
  left-to-right over every occurrence).
* Python floats are modelled as rationals `ℚ` for the control-flow model
  (no claim depends on float rounding there) and as reals `ℝ` for the
  camera mathematics (`get_focal_length`, the yaw rotation of the POV
  offset), where the claims are about real analysis.
* CSV numeric pose cells (X,Y,Z,Yaw,Pitch,Roll) are carried pre-parsed as
  `ℚ` in `Row`; the cells whose parsing the claims exercise (the
  `Comment` key=value configs, the `Index` cell, the `Body` cell) are
  kept as strings and parsed by faithful models of the Python code.
* Calls into the Unreal editor are modelled by a `Scene` oracle
  (asset-existence and asset-load predicates, presence of the
  ground-truth logger and of the camera-root parent actor) plus an
  event trace recorded in the produced `Timeline`.
* Fatal conditions — Python exceptions (`KeyError`, `IndexError`,
  `ValueError`, attribute errors) and the script's `log_error` +
  `return False` / `break` paths — are both modelled as an aborted
  state: either way the remaining row stream is not processed.
-/

/-! ## Python-style string and dict helpers

These are structural-recursion implementations over character lists (the
core `String.splitOn`/`String.replace` are opaque to the kernel), with
the exact semantics of the Python methods on the separators the script
uses (all single characters). -/

/-- `str.split(sep)` for a single-character separator: keeps empty
pieces; the empty string yields `[""]`. -/
def pySplitChar (sep : Char) : List Char → List (List Char)
  | [] => [[]]
  | c :: rest =>
    match pySplitChar sep rest with
    | [] => [[]]
    | r :: rs => if c == sep then [] :: r :: rs else (c :: r) :: rs

/-- `s.split(sep)` on strings. -/
def pySplitOn (s : String) (sep : Char) : List String :=
  (pySplitChar sep s.toList).map String.mk

/-- `s.startswith(pre)`. -/
def pyStartsWith (s pre : String) : Bool :=
  pre.toList.isPrefixOf s.toList

/-- `s.endswith(suf)`. -/
def pyEndsWith (s suf : String) : Bool :=
  suf.toList.isSuffixOf s.toList

/-- Left-to-right non-overlapping replacement, with fuel for structural
recursion (the fuel `s.length` always suffices for a nonempty pattern). -/
def pyReplaceFuel (pat rep : List Char) : Nat → List Char → List Char
  | 0, s => s
  | fuel + 1, s =>
    match s with
    | [] => []
    | c :: rest =>
      if pat.isPrefixOf (c :: rest) then
        rep ++ pyReplaceFuel pat rep fuel ((c :: rest).drop pat.length)
      else c :: pyReplaceFuel pat rep fuel rest

/-- `s.replace(pat, rep)`: every non-overlapping occurrence, scanning from
the left.  (The script only ever replaces nonempty patterns.) -/
def pyReplace (s pat rep : String) : String :=
  String.mk (pyReplaceFuel pat.toList rep.toList s.toList.length s.toList)

/-- Nonempty all-digit string value. -/
def pyDigits? (cs : List Char) : Option Nat :=
  if cs ≠ [] ∧ cs.all Char.isDigit then
    some (cs.foldl (fun n c => 10 * n + (c.toNat - 48)) 0)
  else none

/-- Model of Python `int()` on the decimal forms the tool uses: optional
minus sign, digits.  Returns `none` when Python would raise
`ValueError`. -/
def pyToInt? (s : String) : Option Int :=
  match s.toList with
  | '-' :: rest => (pyDigits? rest).map (fun v => -(v : Int))
  | cs => (pyDigits? cs).map (fun v => (v : Int))

/-- `dict(zip(keys, values))` lookup: Python dicts built from a zip keep the
last occurrence of a duplicated key, so lookup returns the last match. -/
def pyGet? (d : List (String × String)) (k : String) : Option String :=
  (d.reverse.find? (fun p => p.1 == k)).map (·.2)

/-- `k in dict` membership test. -/
def pyHas (d : List (String × String)) (k : String) : Bool :=
  d.any (fun p => p.1 == k)

/-- One `key=value` piece of a Comment cell: `value.split("=")[0]` and
`value.split("=")[1]`.  A piece with no `=` raises `IndexError` in Python
(modelled as `none`). -/
def parseKV (s : String) : Option (String × String) :=
  match pySplitOn s '=' with
  | [] => none
  | [_] => none
  | k :: v :: _ => some (k, v)

/-- `row["Comment"].split(";")` followed by splitting each piece at `=`,
exactly as the Group/Body branches of `__main__` build their config dicts. -/
def parseConfig (comment : String) : Option (List (String × String)) :=
  (pySplitOn comment ';').mapM parseKV

/-- Value of a digit string. -/
def digitsVal (cs : List Char) : Nat :=
  cs.foldl (fun n c => 10 * n + (c.toNat - 48)) 0

/-- Model of Python `float()` on the decimal forms the tool uses:
optional sign, digits, optional fraction.  Returns `none` when Python
would raise `ValueError`. -/
def parseFloat? (s : String) : Option ℚ :=
  let cs := s.toList
  let sgn : ℚ := match cs with | '-' :: _ => -1 | _ => 1
  let t : List Char := match cs with | '-' :: rest => rest | _ => cs
  match pySplitChar '.' t with
  | [a] =>
      if a ≠ [] ∧ a.all Char.isDigit then some (sgn * digitsVal a) else none
  | [a, b] =>
      if (a ≠ [] ∨ b ≠ []) ∧ a.all Char.isDigit ∧ b.all Char.isDigit then
        some (sgn * ((digitsVal a : ℚ) + (digitsVal b : ℚ) / (10 ^ b.length)))
      else none
  | _ => none

/-- `re.search(r"(.+)_(.+)", body)`: with the greedy groups this matches
iff some underscore has at least one character on each side, splitting at
the last underscore that is followed by at least one character.  Returns
`(subject, animation_id)`. -/
def splitBodyName? (body : String) : Option (String × String) :=
  let cs := body.toList
  match (List.range cs.length).reverse.find?
      (fun p => decide (1 ≤ p) && decide (p + 1 < cs.length) &&
        (cs.getD p ' ' == '_')) with
  | none => none
  | some p => some (String.mk (cs.take p), String.mk (cs.drop (p + 1)))

/-- `path.split("'")[1]`: the object path inside an Unreal reference string
such as `SkeletalMesh'/Engine/...'` (`add_skeletal_mesh_for_pov`). -/
def innerAsset (p : String) : Option String :=
  (pySplitOn p '\x27')[1]?

/-! ## Real-valued camera mathematics (`get_focal_length`, POV offset) -/

/-- `math.radians` -/
noncomputable def radians (degrees : ℝ) : ℝ := degrees * Real.pi / 180

/-- `get_focal_length` (line 298): `sensor_width / (2.0 * tan(radians(camera_hfov)/2))`.
The sensor width is read off the camera component; it is passed here as an
argument. -/
noncomputable def get_focal_length (sensor_width camera_hfov : ℝ) : ℝ :=
  sensor_width / (2 * Real.tan (radians camera_hfov / 2))

/-- Lines 697–699: the local head-frame offset `(x, y)` rotated into world
space by the host body's yaw (degrees):
`rotated_x = x*cos(yaw_rad) - y*sin(yaw_rad)`,
`rotated_y = x*sin(yaw_rad) + y*cos(yaw_rad)`. -/
noncomputable def rotate_local_offset (x y yawDeg : ℝ) : ℝ × ℝ :=
  (x * Real.cos (radians yawDeg) - y * Real.sin (radians yawDeg),
   x * Real.sin (radians yawDeg) + y * Real.cos (radians yawDeg))

/-- Lines 690–714: the code's `local_offset = (0.0, 0.0, 0.20)` is rotated
by the body yaw and the result (with the z component kept) is set as the
POV camera's translation defaults relative to its attach parent. -/
noncomputable def pov_camera_translation (bodyYawDeg : ℝ) : ℝ × ℝ × ℝ :=
  ((rotate_local_offset 0 0 bodyYawDeg).1,
   (rotate_local_offset 0 0 bodyYawDeg).2,
   0.20)

/-! ## Module-level path constants (lines 17-40) -/

def WARMUP_FRAMES : Int := 10
def data_root_unreal : String := "/Engine/PS/Bedlam/"
def skeletal_body_root : String := data_root_unreal ++ "SMPLX_fbx/"
def geometry_cache_body_root : String := data_root_unreal ++ "SMPLX_abc/"
def hair_root : String := data_root_unreal ++ "Hair/CC/Meshes/"
def animation_root : String := data_root_unreal ++ "SMPLX_fbx/"
def hdri_root : String := data_root_unreal ++ "HDRI/4k/"
def hdri_suffix : String := ""
def material_body_root : String := "/Engine/PS/Meshcapade/SMPL/Materials"
def material_clothing_root : String := data_root_unreal ++ "Clothing/Materials"
def bedlam_root : String := "/Game/Bedlam/"
def level_sequence_hdri_template : String := bedlam_root ++ "LS_Template_HDRI"
def level_sequences_root : String := bedlam_root ++ "LevelSequences/"
def camera_root : String := bedlam_root ++ "CameraMovement/"

/-! ## Data model -/

/-- `CameraPose` dataclass (line 64). -/
structure CameraPose where
  x : ℚ
  y : ℚ
  z : ℚ
  yaw : ℚ
  pitch : ℚ
  roll : ℚ
deriving DecidableEq

/-- `SequenceBody` dataclass (line 44).  Optional string fields are Python
`None`-able attributes. -/
structure SequenceBody where
  subject : String
  body_path : String
  clothing_path : Option String
  hair_path : Option String
  animation_path : Option String
  x : ℚ
  y : ℚ
  z : ℚ
  yaw : ℚ
  pitch : ℚ
  roll : ℚ
  start_frame : Int
  texture_body : Option String
  texture_clothing : Option String
  texture_clothing_overlay : Option String
  skeletal_mesh_path : Option String := none
  skeletal_animation_path : Option String := none
deriving DecidableEq

/-- One CSV data row (`csv.DictReader` dict).  The six pose cells are
carried pre-parsed as rationals; `Type`, `Index`, `Body`, `Comment` stay
strings, as the claims exercise their parsing. -/
structure Row where
  rtype : String
  index : String
  body : String
  x : ℚ
  y : ℚ
  z : ℚ
  yaw : ℚ
  pitch : ℚ
  roll : ℚ
  comment : String
deriving DecidableEq

/-- The pose cells of a row, as read by the Group branch (line 805). -/
def rowPose (r : Row) : CameraPose :=
  ⟨r.x, r.y, r.z, r.yaw, r.pitch, r.roll⟩

/-- The abstract scene host: asset registry, asset loading, and the two
actors looked up from the current map. -/
structure Scene where
  assetExists : String → Bool
  loads : String → Bool
  hasLogger : Bool
  hasCameraRootParent : Bool
  cameraRootLoc : ℚ × ℚ × ℚ

/-- Where the LevelSequence came from (lines 375-405): duplicated from the
HDRI template, duplicated from a camera-movement template, or created
from scratch. -/
inductive TLSource
  | scratch
  | hdriTpl (tpl : String) (hdriPath : String)
  | cameraTpl (tpl : String)
deriving DecidableEq

/-- Observable host actions performed while building one timeline, in
program order. -/
inductive Ev
  | staticCamera (pose : CameraPose) (hfov : Option ℚ)
  | templateCameraReuse
  | templateStaticPose (pose : CameraPose)
  | templateRekey
  | povPlaceholderCut
  | cameraRootTrack (yawDefault : ℚ) (loc : ℚ × ℚ × ℚ)
  | cameraRootYawOffset (yawDelta : ℚ) (loc : ℚ × ℚ × ℚ)
  | bodyTrack (i : Nat) (overlay : Bool) (range : Int × Int)
  | rigSpawn (i : Nat)
  | clothingTrack (i : Nat) (range : Int × Int)
  | hairAttach (i : Nat) (socket : String) (range : Int × Int)
  | povCameraSpawn (bodyYaw : ℚ) (rot : ℚ × ℚ × ℚ) (attachSocket : String)
      (attachRange : Int × Int)
  | cameraCutRetarget
deriving DecidableEq

/-- The timeline artifact produced by one successful `add_level_sequence`
call. -/
structure Timeline where
  source : TLSource
  displayRate : Nat
  playbackStart : Int
  playbackEnd : Int
  frameKeys : List (Int × Int)
  sequenceNameDefault : Option String
  events : List Ev
deriving DecidableEq

/-! ## Asset path composition (pure string building in `__main__`) -/

/-- Line 921/924: `GeometryCache'{geometry_cache_body_root}{subject}/{body}.{body}'`. -/
def bodyAssetPath (subject body : String) : String :=
  "GeometryCache\x27" ++ geometry_cache_body_root ++ subject ++ "/" ++ body ++
    "." ++ body ++ "\x27"

/-- Line 918: `SkeletalMesh'{skeletal_body_root}{subject}/{body}.{body}'`. -/
def skelMeshPath (subject body : String) : String :=
  "SkeletalMesh\x27" ++ skeletal_body_root ++ subject ++ "/" ++ body ++ "." ++
    body ++ "\x27"

/-- Lines 919/952: `AnimSequence'{animation_root}{subject}/{body}_Anim.{body}_Anim'`. -/
def skelAnimPath (subject body : String) : String :=
  "AnimSequence\x27" ++ animation_root ++ subject ++ "/" ++ body ++ "_Anim." ++
    body ++ "_Anim\x27"

/-- Line 901: `StaticMesh'{hair_root}{hair_type}/{hair_type}.{hair_type}'`. -/
def hairAssetPath (hair_type : String) : String :=
  "StaticMesh\x27" ++ hair_root ++ hair_type ++ "/" ++ hair_type ++ "." ++
    hair_type ++ "\x27"

/-- Lines 938-939: the clothing path derived from the body path by
`replace("SMPLX", "Clothing")` and inserting `_clo` after the animation-id
(both replacements are replace-all, exactly as in Python). -/
def derivedClothingPath (subject body animation_id : String) : String :=
  pyReplace (pyReplace (bodyAssetPath subject body) "SMPLX" "Clothing")
    animation_id (animation_id ++ "_clo")

/-- Line 564: `MaterialInstanceConstant'{material_body_root}/MI_{texture_body}'`. -/
def materialBodyPath (texture_body : String) : String :=
  "MaterialInstanceConstant\x27" ++ material_body_root ++ "/MI_" ++
    texture_body ++ "\x27"

/-- Line 600: the per-subject clothing material instance path. -/
def materialClothingPath (subject texture_clothing : String) : String :=
  "MaterialInstanceConstant\x27" ++ material_clothing_root ++ "/" ++ subject ++
    "/MI_" ++ subject ++ "_" ++ texture_clothing ++ "\x27"

/-- Lines 214-217 in `add_hair`: the hidden skeletal mesh path derived from
the animation path by taking its last `/` component, erasing every
occurrence of it, and re-appending it with `_Anim` stripped. -/
def hairSkelMeshPath (animation_path : String) : String :=
  let nm := (pySplitOn animation_path '/').getLastD ""
  pyReplace animation_path nm "" ++ pyReplace nm "_Anim" ""

/-! ## POV view rotation table (lines 678-685) -/

/-- `view_rotations` dict: `view_id → unreal.Rotator(roll, pitch, yaw)`,
returned as `(roll, pitch, yaw)`. -/
def view_rotations (v : Int) : Option (ℚ × ℚ × ℚ) :=
  if v = 0 then some (0, 0, 90)
  else if v = 1 then some (0, 0, -90)
  else if v = 2 then some (0, 0, 0)
  else if v = 3 then some (0, 0, 180)
  else if v = 4 then some (0, 90, 90)
  else if v = 5 then some (0, -90, 90)
  else none

/-- Lines 717-727: `if view_id is not None and view_id in view_rotations`
use the table entry, otherwise default all three channels to zero.  The
code is a total if/else; no branch raises. -/
def pov_rotation_offset (view_id : Option Int) : ℚ × ℚ × ℚ :=
  match view_id with
  | some v =>
    match view_rotations v with
    | some r => r
    | none => (0, 0, 0)
  | none => (0, 0, 0)

/-! ## `add_level_sequence` (lines 365-749) -/

/-- Lines 375-405: pick the LevelSequence source.  HDRI requested →
duplicate the (current value of the) HDRI template and load the HDRI
asset, both fatal if absent; else a non-"Static" camera movement
duplicates its template; else create from scratch. -/
def resolveSource (sc : Scene) (hdri_name : Option String)
    (camera_movement hdriTemplate : String) : Option TLSource :=
  match hdri_name with
  | some h =>
    if !sc.assetExists hdriTemplate then none
    else
      let hdri_path := hdri_root ++ h ++ hdri_suffix
      if !sc.loads hdri_path then none
      else some (.hdriTpl hdriTemplate hdri_path)
  | none =>
    if camera_movement ≠ "Static" then
      let tpl := camera_root ++ "LS_Camera_" ++ camera_movement
      if !sc.assetExists tpl then none else some (.cameraTpl tpl)
    else some .scratch

/-- Lines 414-449: camera setup.  Returns the emitted events and whether a
camera-root binding was taken from the template (the "Orbit" case, line
441-443).  The iteration over the template's possessables is host content
and is abstracted into the `templateStaticPose` / `templateRekey`
events. -/
def cameraSetup (pov_camera : Bool) (camera_movement : String)
    (camera_pose : CameraPose) (camera_hfov : Option ℚ) : List Ev × Bool :=
  if pov_camera then ([.povPlaceholderCut], false)
  else if camera_movement = "Static" then
    ([.staticCamera camera_pose camera_hfov], false)
  else
    ([.templateCameraReuse] ++
      (if pyStartsWith camera_movement "Zoom" || pyStartsWith camera_movement "Orbit" then
        [.templateStaticPose camera_pose, .templateRekey] else []),
     pyStartsWith camera_movement "Orbit")

/-- Lines 451-484: the camera-root override.  Fatal when the camera has no
attach parent; when the template supplied the root binding ("Orbit") and
no yaw is given but a location is, Python dereferences a `None`
`transform_channels` — modelled as failure. -/
def cameraRootStep (sc : Scene) (rootFromTemplate : Bool)
    (cameraroot_yaw : Option ℚ) (cameraroot_location : Option (ℚ × ℚ × ℚ)) :
    Option (List Ev) :=
  if cameraroot_yaw.isNone && cameraroot_location.isNone then some []
  else if !sc.hasCameraRootParent then none
  else if !rootFromTemplate then
    some [.cameraRootTrack (cameraroot_yaw.getD 0)
      (cameraroot_location.getD sc.cameraRootLoc)]
  else
    match cameraroot_yaw with
    | some y => some [.cameraRootYawOffset y
        (cameraroot_location.getD sc.cameraRootLoc)]
    | none => none

/-- Lines 496-505: the ground-truth logger's integer `Frame` channel keys,
in insertion order: `-1` at `-WARMUP_FRAMES` (only when `WARMUP_FRAMES >
0`, which it is), then `frame_number` at every frame in
`range(0, end_frame)`. -/
def frameKeysFor (end_frame : Int) : List (Int × Int) :=
  (if WARMUP_FRAMES > 0 then [(-WARMUP_FRAMES, -1)] else []) ++
    (List.range end_frame.toNat).map (fun (i : Nat) => ((i : Int), (i : Int)))

/-- Lines 544-558 / 573-588, calling `add_skeletal_mesh_for_pov` (line 74):
for body index 0 under POV, spawn the hidden skeletal rig.  The function
loads `path.split("'")[1]` for mesh and animation and returns `None`
(leaving no binding) when either load fails; Python's crash on a path
without quotes is conflated with that `None` result, since both abort the
sequence at the POV check below.  Returns (events, new rig binding). -/
def povRigStep (sc : Scene) (pov_camera : Bool) (i : Nat) (b : SequenceBody)
    (rig : Option Unit) : List Ev × Option Unit :=
  if pov_camera && i == 0 then
    match b.skeletal_mesh_path, b.skeletal_animation_path with
    | some smp, some sap =>
      if smp = "" then ([], rig)
      else
        match innerAsset smp, innerAsset sap with
        | some ma, some aa =>
          if sc.loads ma && sc.loads aa then ([.rigSpawn i], some ()) else ([], none)
        | _, _ => ([], none)
    | _, _ => ([], rig)
  else ([], rig)

/-- Lines 608-612, `add_hair` (line 196): load hair mesh, animation
sequence and the derived hidden skeletal mesh (each fatal), then attach
the hair via a "head"-socket constraint over the animation range. -/
def hairStep (sc : Scene) (i : Nat) (astart aend : Int) (b : SequenceBody) :
    Option (List Ev) :=
  match b.hair_path with
  | none => some []
  | some hp =>
    if !sc.loads hp then none
    else
      match b.animation_path with
      | none => none
      | some ap =>
        if !sc.loads ap then none
        else if !sc.loads (hairSkelMeshPath ap) then none
        else some [.hairAttach i "head" (astart, aend)]

/-- Lines 616-743: the POV camera block.  NOTE: in the source this block is
*inside* the per-body `for` loop (its own comment says it was moved
outside, but the indentation keeps it inside), so it runs at the end of
every loop iteration once a rig binding exists: spawn the square-sensor
camera, attach it to the rig's "head" socket over
`[-WARMUP_FRAMES, end_frame]`, set the yaw-rotated offset and the view
rotation, retarget the camera cut.  When POV is on and no rig binding was
produced, the sequence fails (line 741-743). -/
def povBlockStep (pov_camera : Bool) (rig : Option Unit) (view_id : Option Int)
    (yaw0 : ℚ) (end_frame : Int) : Option (List Ev) :=
  if pov_camera then
    match rig with
    | some _ => some [.povCameraSpawn yaw0 (pov_rotation_offset view_id) "head"
        (-WARMUP_FRAMES, end_frame), .cameraCutRetarget]
    | none => none
  else some []

/-- One iteration of the body loop (lines 519-743) for `sequence_body`
number `i`: load the body asset (fatal), branch on the clothing-overlay
mode, spawn the POV rig for body 0, add clothing (fatal when its material
or asset fails to load), add hair, then the POV camera block (see
`povBlockStep` — inside the loop).  Returns the emitted events and the
rig binding carried to the next iteration. -/
def processBody (sc : Scene) (pov_camera : Bool) (view_id : Option Int)
    (sequence_frames : Int) (yaw0 : ℚ) (i : Nat) (b : SequenceBody)
    (rig : Option Unit) : Option (List Ev × Option Unit) :=
  if !sc.loads b.body_path then none
  else
    let astart : Int := -b.start_frame
    let aend : Int := sequence_frames
    let core : Option (List Ev × Option Unit) :=
      match b.texture_clothing_overlay with
      | some _ =>
        -- line 532: `texture_body.startswith(...)` crashes when absent
        match b.texture_body with
        | none => none
        | some _ =>
          let (rigEvs, rig') := povRigStep sc pov_camera i b rig
          some ([.bodyTrack i true (astart, aend)] ++ rigEvs, rig')
      | none =>
        let matOk : Bool :=
          match b.texture_body with
          | none => true
          | some tb => sc.loads (materialBodyPath tb)
        if !matOk then none
        else
          let (rigEvs, rig') := povRigStep sc pov_camera i b rig
          match b.clothing_path with
          | none => some ([.bodyTrack i false (astart, aend)] ++ rigEvs, rig')
          | some cp =>
            if !sc.loads cp then none
            else
              let cmatOk : Bool :=
                match b.texture_clothing with
                | none => true
                | some tc => sc.loads (materialClothingPath b.subject tc)
              if !cmatOk then none
              else some ([.bodyTrack i false (astart, aend)] ++ rigEvs ++
                [.clothingTrack i (astart, aend)], rig')
    match core with
    | none => none
    | some (evs, rig') =>
      match hairStep sc i astart aend b with
      | none => none
      | some hairEvs =>
        match povBlockStep pov_camera rig' view_id yaw0 sequence_frames with
        | none => none
        | some povEvs => some (evs ++ hairEvs ++ povEvs, rig')

/-- The whole body loop, threading the rig binding. -/
def processBodies (sc : Scene) (pov_camera : Bool) (view_id : Option Int)
    (sequence_frames : Int) (yaw0 : ℚ) :
    List SequenceBody → Nat → Option Unit → Option (List Ev × Option Unit)
  | [], _, rig => some ([], rig)
  | b :: rest, i, rig =>
    match processBody sc pov_camera view_id sequence_frames yaw0 i b rig with
    | none => none
    | some (evs, rig') =>
      match processBodies sc pov_camera view_id sequence_frames yaw0 rest
          (i + 1) rig' with
      | none => none
      | some (evs₂, rigF) => some (evs ++ evs₂, rigF)

/-- `add_level_sequence` (line 365): returns the built timeline, or `none`
on any of its `return False` paths.  `hdriTemplate` is the current value
of the module global `level_sequence_hdri_template`. -/
def add_level_sequence (sc : Scene) (name : String) (camera_pose : CameraPose)
    (sequence_bodies : List SequenceBody) (sequence_frames : Int)
    (hdri_name : Option String) (camera_hfov : Option ℚ)
    (camera_movement : String) (cameraroot_yaw : Option ℚ)
    (cameraroot_location : Option (ℚ × ℚ × ℚ)) (pov_camera : Bool)
    (view_id : Option Int) (hdriTemplate : String) : Option Timeline :=
  match resolveSource sc hdri_name camera_movement hdriTemplate with
  | none => none
  | some src =>
    let cam := cameraSetup pov_camera camera_movement camera_pose camera_hfov
    match cameraRootStep sc cam.2 cameraroot_yaw cameraroot_location with
    | none => none
    | some rootEvs =>
      let end_frame := sequence_frames
      let yaw0 : ℚ := ((sequence_bodies.head?).map (fun b => b.yaw)).getD 0
      match processBodies sc pov_camera view_id sequence_frames yaw0
          sequence_bodies 0 none with
      | none => none
      | some (bodyEvs, _) =>
        some { source := src
               displayRate := 30
               playbackStart := -WARMUP_FRAMES
               playbackEnd := end_frame
               frameKeys := if sc.hasLogger then frameKeysFor end_frame else []
               sequenceNameDefault := if sc.hasLogger then some name else none
               events := cam.1 ++ rootEvs ++ bodyEvs }

/-! ## `__main__` row-stream processing (lines 754-981) -/

/-- Possible fatal conditions of the row scan.  Python raises for the
first four (`KeyError`/`IndexError`/`ValueError`/`TypeError`-like); the
others are the script's logged `success = False; break` paths. -/
inductive RunError
  | configParse
  | keyMissing (k : String)
  | valueError
  | indexError
  | invalidBodyName (body : String)
  | missingAsset (p : String)
  | addFailed
  | noSequenceContext
deriving DecidableEq

/-- The fields the Group branch computes (lines 804-854). `newLoc` is
`some` exactly when the row supplies `cameraroot_x` — there is no `else`
resetting `cameraroot_location` (lines 847-851). -/
structure GroupCfg where
  name : String
  frames : Int
  hdri : Option String
  hfov : Option ℚ
  pov : Bool
  view : Option Int
  yaw : Option ℚ
  newLoc : Option (ℚ × ℚ × ℚ)
deriving DecidableEq

/-- Parse an optional config key with a value parser: absent → `some
none`; present but unparseable → `none` (Python raises). -/
def optField (cfg : List (String × String)) (k : String)
    (p : String → Option α) : Option (Option α) :=
  match pyGet? cfg k with
  | none => some none
  | some v => (p v).map some

/-- The Group branch's Comment handling (lines 808-851), in program
order: build the dict, then `sequence_name` (KeyError if missing),
`int(frames)`, `hdri`, `float(camera_hfov)`, the `pov_camera == "true"`
sentinel with its `view_id`, `float(cameraroot_yaw)`, and the
all-or-nothing `cameraroot_x/y/z` triple. -/
def parseGroupConfig (comment : String) : Option GroupCfg :=
  match parseConfig comment with
  | none => none
  | some cfg =>
    match pyGet? cfg "sequence_name" with
    | none => none
    | some nm =>
      match pyGet? cfg "frames" with
      | none => none
      | some fs =>
        match pyToInt? fs with
        | none => none
        | some frames =>
          let hdri := pyGet? cfg "hdri"
          match optField cfg "camera_hfov" parseFloat? with
          | none => none
          | some hfov =>
            let pov := pyGet? cfg "pov_camera" == some "true"
            match (if pov then optField cfg "view_id" pyToInt?
                   else some none) with
            | none => none
            | some view =>
              match optField cfg "cameraroot_yaw" parseFloat? with
              | none => none
              | some yaw =>
                match (if pyHas cfg "cameraroot_x" then
                    match pyGet? cfg "cameraroot_x", pyGet? cfg "cameraroot_y",
                        pyGet? cfg "cameraroot_z" with
                    | some xs, some ys, some zs =>
                      match parseFloat? xs, parseFloat? ys, parseFloat? zs with
                      | some xv, some yv, some zv => some (some (xv, yv, zv))
                      | _, _, _ => none
                    | _, _, _ => none
                  else some none) with
                | none => none
                | some newLoc =>
                  some ⟨nm, frames, hdri, hfov, pov, view, yaw, newLoc⟩

/-- The fields the Body branch reads from its Comment dict
(lines 878-899). -/
structure BodyCfg where
  start_frame : Int
  texture_body : Option String
  texture_clothing : Option String
  texture_clothing_overlay : Option String
  hair : Option String
deriving DecidableEq

/-- The Body branch's Comment handling (lines 871-899), in program order. -/
def parseBodyConfig (comment : String) : Option BodyCfg :=
  match parseConfig comment with
  | none => none
  | some cfg =>
    match optField cfg "start_frame" pyToInt? with
    | none => none
    | some sf =>
      some ⟨sf.getD 0, pyGet? cfg "texture_body", pyGet? cfg "texture_clothing",
        pyGet? cfg "texture_clothing_overlay", pyGet? cfg "hair"⟩

/-- One completed `add_level_sequence` call recorded with its arguments. -/
structure BuiltSeq where
  name : String
  bodies : List SequenceBody
  frames : Int
  rootLoc : Option (ℚ × ℚ × ℚ)
  timeline : Timeline
deriving DecidableEq

/-- The mutable state of the `__main__` scan: the per-group loop variables
(lines 788-798), the module global `level_sequence_hdri_template`
(rebindable at line 895-897), the accumulated bodies, the successfully
built sequences, the trace of body-asset registry queries
(`does_asset_exist`, line 928), and the abort flag. -/
structure RunState where
  sequence_name : Option String
  sequence_frames : Int
  hdri_name : Option String
  camera_hfov : Option ℚ
  camera_pose : Option CameraPose
  cameraroot_yaw : Option ℚ
  cameraroot_location : Option (ℚ × ℚ × ℚ)
  pov_camera : Bool
  view_id : Option Int
  hdriTemplate : String
  sequence_bodies : List SequenceBody
  built : List BuiltSeq
  resolvedBodies : List String
  aborted : Option RunError

/-- Initial state (lines 788-798; the global template at line 37). -/
def initState : RunState :=
  { sequence_name := none, sequence_frames := 0, hdri_name := none,
    camera_hfov := none, camera_pose := none, cameraroot_yaw := none,
    cameraroot_location := none, pov_camera := false, view_id := none,
    hdriTemplate := level_sequence_hdri_template, sequence_bodies := [],
    built := [], resolvedBodies := [], aborted := none }

/-- The Group branch (lines 804-856): set the camera pose, parse the
config (any missing required key or bad value aborts), install the new
per-group fields — `cameraroot_location` only when the row supplies the
triple, everything else unconditionally — and reset the body
accumulator. -/
def groupStep (r : Row) (s : RunState) : RunState :=
  match parseGroupConfig r.comment with
  | none => { s with camera_pose := some (rowPose r),
                     aborted := some .configParse }
  | some c =>
    { s with camera_pose := some (rowPose r)
             sequence_name := some c.name
             sequence_frames := c.frames
             hdri_name := c.hdri
             camera_hfov := c.hfov
             pov_camera := c.pov
             view_id := c.view
             cameraroot_yaw := c.yaw
             cameraroot_location :=
               match c.newLoc with
               | some l => some l
               | none => s.cameraroot_location
             sequence_bodies := [] }

/-- Lines 969-977: flush the accumulated bodies into a sequence via
`add_level_sequence`; a `False` return aborts the scan.  Python would
raise (`TypeError`) if no Group row had set `sequence_name`/`camera_pose`
yet. -/
def flushSeq (sc : Scene) (camera_movement : String) (s : RunState) : RunState :=
  match s.sequence_name, s.camera_pose with
  | some nm, some cp =>
    match add_level_sequence sc nm cp s.sequence_bodies s.sequence_frames
        s.hdri_name s.camera_hfov camera_movement s.cameraroot_yaw
        s.cameraroot_location s.pov_camera s.view_id s.hdriTemplate with
    | some tl =>
      { s with built := s.built ++
          [⟨nm, s.sequence_bodies, s.sequence_frames, s.cameraroot_location, tl⟩] }
    | none => { s with aborted := some .addFailed }
  | _, _ => { s with aborted := some .noSequenceContext }

/-- The Body branch (lines 858-980) for one row.  `n` is
`len(csv_rows)`; `next` is `csv_rows[row_index + 1]` when it exists.  In
order: `int(row["Index"])`, the Comment config (the `hair` key also
appends `"_Hair"` to the module-global HDRI template, at most once —
lines 894-897), the `(.+)_(.+)` body-name match, path composition (plus
skeletal paths under POV), the body-asset registry check, the clothing
path and its registry check, the hair animation path, appending the
`SequenceBody`, and the end-of-sequence check
`index >= len(csv_rows) - 1` / `csv_rows[row_index+1]["Type"] != "Body"`
(lines 962-970) — looking past the end raises `IndexError`. -/
def bodyStep (sc : Scene) (camera_movement : String) (n : Nat)
    (next : Option Row) (r : Row) (s : RunState) : RunState :=
  match pyToInt? r.index with
  | none => { s with aborted := some .valueError }
  | some k =>
    match parseBodyConfig r.comment with
    | none => { s with aborted := some .configParse }
    | some bc =>
      let tpl := if bc.hair.isSome && !pyEndsWith s.hdriTemplate "_Hair" then
          s.hdriTemplate ++ "_Hair" else s.hdriTemplate
      let hair_path := bc.hair.map hairAssetPath
      match splitBodyName? r.body with
      | none => { s with hdriTemplate := tpl,
                         aborted := some (.invalidBodyName r.body) }
      | some (subject, animation_id) =>
        let body_path := bodyAssetPath subject r.body
        let s := { s with hdriTemplate := tpl,
                          resolvedBodies := s.resolvedBodies ++ [body_path] }
        if !sc.assetExists body_path then
          { s with aborted := some (.missingAsset body_path) }
        else
          let clothing_path := if bc.texture_clothing.isSome then
              some (derivedClothingPath subject r.body animation_id) else none
          let clothingOk : Bool := match clothing_path with
            | none => true
            | some cp => sc.assetExists cp
          if !clothingOk then
            { s with aborted := some (.missingAsset (clothing_path.getD "")) }
          else
            let animation_path := if hair_path.isSome then
                some (skelAnimPath subject r.body) else none
            let b : SequenceBody :=
              { subject := subject, body_path := body_path,
                clothing_path := clothing_path, hair_path := hair_path,
                animation_path := animation_path,
                x := r.x, y := r.y, z := r.z, yaw := r.yaw, pitch := r.pitch,
                roll := r.roll, start_frame := bc.start_frame,
                texture_body := bc.texture_body,
                texture_clothing := bc.texture_clothing,
                texture_clothing_overlay := bc.texture_clothing_overlay,
                skeletal_mesh_path := if s.pov_camera then
                    some (skelMeshPath subject r.body) else none,
                skeletal_animation_path := if s.pov_camera then
                    some (skelAnimPath subject r.body) else none }
            let s := { s with sequence_bodies := s.sequence_bodies ++ [b] }
            if k ≥ (n : Int) - 1 then flushSeq sc camera_movement s
            else
              match next with
              | none => { s with aborted := some .indexError }
              | some nr =>
                if nr.rtype ≠ "Body" then flushSeq sc camera_movement s else s

/-- Dispatch on `row["Type"]` (lines 801-858); any other value is skipped
like a Comment row. -/
def stepRow (sc : Scene) (camera_movement : String) (n : Nat)
    (next : Option Row) (r : Row) (s : RunState) : RunState :=
  if r.rtype = "Comment" then s
  else if r.rtype = "Group" then groupStep r s
  else if r.rtype = "Body" then bodyStep sc camera_movement n next r s
  else s

/-- The row scan: the first fatal condition freezes the state (Python
raises or `break`s out of the loop). -/
def runAux (sc : Scene) (camera_movement : String) (n : Nat) :
    List Row → RunState → RunState
  | [], s => s
  | r :: rest, s =>
    if s.aborted.isSome then s
    else runAux sc camera_movement n rest
      (stepRow sc camera_movement n rest.head? r s)

/-- The whole CSV run (after the camera-actor lookup), from the initial
state. -/
def runCsv (sc : Scene) (camera_movement : String) (rows : List Row) : RunState :=
  runAux sc camera_movement rows.length rows initState

/-! ## Spec-side row-stream segmentation (for claim C1) -/

/-- The Body rows directly following a position. -/
def takeBodies (l : List Row) : List Row :=
  l.takeWhile (fun r => r.rtype == "Body")

/-- The row stream with its leading Body rows removed. -/
def dropBodies (l : List Row) : List Row :=
  l.dropWhile (fun r => r.rtype == "Body")

/-- For each Group row (in order), the number of Body rows between it and
the next Group row or the end of the file. -/
def bodySegments : List Row → List Nat
  | [] => []
  | r :: rest =>
    if r.rtype == "Group" then
      (takeBodies rest).length :: bodySegments (dropBodies rest)
    else bodySegments rest
termination_by l => l.length
decreasing_by
  all_goals simp only [dropBodies, List.length_cons]
  · have h := (List.dropWhile_sublist (fun r => r.rtype == "Body")
      (l := rest)).length_le
    omega
  · omega

/-! ## Validity of an input CSV (for claim C1)

The generator's own CSV producers (`be_add_pov_six_views.py` renumbers
`Index` with the global data-row position) write the `Index` cell of each
row as its 0-based position among the data rows; the end-of-sequence
check of `__main__` (line 964) relies on this.  A CSV is modelled as
valid when it is a run of Comment rows followed by Group blocks, each
Group row followed by one or more Body rows, every Comment config
parseable with its required keys, every body name matching
`(.+)_(.+)`, an overlay texture always accompanied by a body texture
(line 532 dereferences it), and every Body row's `Index` cell an integer
that is `< len(rows) - 1` exactly when the row is not the last row of
the file. -/

/-- A Group row whose Comment parses with all required keys. -/
def GroupRowOk (r : Row) : Bool :=
  r.rtype == "Group" && (parseGroupConfig r.comment).isSome

/-- A Body row whose cells parse: integer `Index`, parseable Comment
(with a body texture whenever an overlay texture is given), a body name
matching `(.+)_(.+)`, and skeletal-path strings from which
`split("'")[1]` can extract an object path (true of every name free of
quotes). -/
def BodyRowOk (r : Row) : Bool :=
  r.rtype == "Body" && (pyToInt? r.index).isSome &&
  (match parseBodyConfig r.comment with
   | none => false
   | some bc =>
     (!bc.texture_clothing_overlay.isSome || bc.texture_body.isSome) &&
     (match splitBodyName? r.body with
      | none => false
      | some (subject, _) =>
        (skelMeshPath subject r.body != "") &&
        (innerAsset (skelMeshPath subject r.body)).isSome &&
        (innerAsset (skelAnimPath subject r.body)).isSome))

/-- `Index` cell of a non-final row: parses and stays below
`len(csv_rows) - 1`, so the end-of-sequence check looks at the next row. -/
def IdxSmall (n : Nat) (r : Row) : Bool :=
  match pyToInt? r.index with
  | some k => decide (k + 1 < (n : Int))
  | none => false

/-- `Index` cell of the final row: parses and reaches
`len(csv_rows) - 1`, so the final Body row flushes its sequence. -/
def IdxLast (n : Nat) (r : Row) : Bool :=
  match pyToInt? r.index with
  | some k => decide (k ≥ (n : Int) - 1)
  | none => false

/-- One Group's run of Body rows (`bs`), related to the rows that follow
it (`rest`): the last Body row either ends the file (and its `Index`
triggers the flush) or is followed by a non-Body row. -/
inductive BodyChunk (n : Nat) : List Row → List Row → Prop
  | last_eof (b : Row) : BodyRowOk b = true → IdxLast n b = true →
      BodyChunk n [b] []
  | last_next (b nr : Row) (tail : List Row) : BodyRowOk b = true →
      IdxSmall n b = true → nr.rtype ≠ "Body" → BodyChunk n [b] (nr :: tail)
  | cons (b : Row) (bs rest : List Row) : BodyRowOk b = true →
      IdxSmall n b = true → BodyChunk n bs rest → BodyChunk n (b :: bs) rest

/-- A well-formed tail of the row stream: a sequence of Group blocks. -/
inductive ValidBlocks (n : Nat) : List Row → Prop
  | nil : ValidBlocks n []
  | block (g : Row) (bs rest : List Row) : GroupRowOk g = true →
      BodyChunk n bs rest → ValidBlocks n rest →
      ValidBlocks n (g :: (bs ++ rest))

/-- A valid CSV: leading Comment rows, then Group blocks. -/
def ValidCsv (rows : List Row) : Prop :=
  ∃ cs blocks, rows = cs ++ blocks ∧ (∀ c ∈ cs, c.rtype = "Comment") ∧
    ValidBlocks rows.length blocks

/-- Per-`SequenceBody` well-formedness needed by `add_level_sequence`
under an all-assets-present scene: overlay mode has its body texture,
hair has its animation reference, and under POV the skeletal reference
strings are present and quote-delimited (all guaranteed for bodies the
Body branch itself constructs from a `BodyRowOk` row). -/
def rigPathsOk (b : SequenceBody) : Bool :=
  match b.skeletal_mesh_path, b.skeletal_animation_path with
  | some smp, some sap =>
    (smp != "") && (innerAsset smp).isSome && (innerAsset sap).isSome
  | _, _ => false

def BodyOkB (pov : Bool) (b : SequenceBody) : Bool :=
  (!b.texture_clothing_overlay.isSome || b.texture_body.isSome) &&
  (!b.hair_path.isSome || b.animation_path.isSome) &&
  (!pov || rigPathsOk b)

/-! ## Concrete inputs used by the witnesses and counterexamples -/

/-- A scene in which every asset exists and loads, with both optional
actors present. -/
def sceneAll : Scene :=
  { assetExists := fun _ => true, loads := fun _ => true, hasLogger := true,
    hasCameraRootParent := true, cameraRootLoc := (0, 0, 0) }

def pose0 : CameraPose := ⟨0, 0, 0, 0, 0, 0⟩

def isPovCameraSpawn : Ev → Bool
  | .povCameraSpawn _ _ _ _ => true
  | _ => false

/-- `Comment,0`, `Group,1`, `Body,2`, `Group,3`, `Body,4`, `Body,5`: a
two-sequence CSV (one body, then two bodies), with the `Index` cells
holding the global data-row positions the repo's CSV producers write. -/
def wRow0 : Row := ⟨"Comment", "0", "", 0, 0, 0, 0, 0, 0, "generator=test"⟩
def wRow1 : Row :=
  ⟨"Group", "1", "", 1, 2, 3, 0, 0, 0,
    "sequence_name=seq_0;frames=3;camera_hfov=60"⟩
def wRow2 : Row :=
  ⟨"Body", "2", "rp_aaron_posed_002_0000", 0, 0, 0, 0, 0, 0,
    "texture_body=skin_m01"⟩
def wRow3 : Row :=
  ⟨"Group", "3", "", 1, 2, 3, 0, 0, 0, "sequence_name=seq_1;frames=2"⟩
def wRow4 : Row :=
  ⟨"Body", "4", "rp_aaron_posed_002_0001", 0, 0, 0, 0, 0, 0,
    "start_frame=5"⟩
def wRow5 : Row :=
  ⟨"Body", "5", "rp_beatrice_posed_017_1038", 4, 0, 0, 90, 0, 0,
    "texture_body=skin_f01"⟩
def wRows : List Row := [wRow0, wRow1, wRow2, wRow3, wRow4, wRow5]

/-- A POV group with two Body rows — the failing input of claim C3. -/
def povRows : List Row :=
  [⟨"Comment", "0", "", 0, 0, 0, 0, 0, 0, "generator=test"⟩,
   ⟨"Group", "1", "", 1, 2, 3, 0, 0, 0,
     "sequence_name=seq_pov;frames=3;pov_camera=true;view_id=3"⟩,
   ⟨"Body", "2", "rp_aaron_posed_002_0000", 0, 0, 0, 90, 0, 0,
     "texture_body=skin_m01"⟩,
   ⟨"Body", "3", "rp_aaron_posed_002_0001", 0, 0, 0, 0, 0, 0,
     "texture_body=skin_m01"⟩]

/-- A Group row whose Comment has `frames` but no `sequence_name`. -/
def badGroupRow : Row :=
  ⟨"Group", "1", "", 0, 0, 0, 0, 0, 0, "frames=100;camera_hfov=60"⟩

/-- A Body row following the bad Group row. -/
def afterBadBodyRow : Row :=
  ⟨"Body", "2", "rp_aaron_posed_002_0000", 0, 0, 0, 0, 0, 0,
    "texture_body=skin_m01"⟩

/-- A Group row supplying the `cameraroot_x/y/z` triple. -/
def rootGroupRow : Row :=
  ⟨"Group", "1", "", 0, 0, 0, 0, 0, 0,
    "sequence_name=seq_r;frames=2;cameraroot_x=1;cameraroot_y=2;cameraroot_z=3"⟩

/-- A Group row with no `cameraroot_x/y/z` keys (and an hdri request). -/
def plainGroupRow : Row :=
  ⟨"Group", "2", "", 0, 0, 0, 0, 0, 0,
    "sequence_name=seq_s;frames=2;hdri=sky_01"⟩

/-- A Body row whose Comment has a `hair` key. -/
def hairBodyRow : Row :=
  ⟨"Body", "1", "rp_aaron_posed_002_0000", 0, 0, 0, 0, 0, 0,
    "texture_body=skin_m01;hair=SMPLX_M_Hair_A"⟩

/-- A Body row with `texture_clothing` and no overlay. -/
def clothBodyRow : Row :=
  ⟨"Body", "0", "rp_aaron_posed_002_0000", 0, 0, 0, 0, 0, 0,
    "texture_body=skin_m01;texture_clothing=outfit_03"⟩

/-- A scene identical to `sceneAll` except that the clothing asset derived
for `clothBodyRow` is missing from the registry and fails to load. -/
def sceneNoClothing : Scene :=
  { assetExists := fun p =>
      !(p == derivedClothingPath "rp_aaron_posed_002" "rp_aaron_posed_002_0000"
        "0000"),
    loads := fun p =>
      !(p == derivedClothingPath "rp_aaron_posed_002" "rp_aaron_posed_002_0000"
        "0000"),
    hasLogger := true, hasCameraRootParent := true,
    cameraRootLoc := (0, 0, 0) }

/-- The `SequenceBody` the Body branch builds from `clothBodyRow` (a
clothing texture, no overlay). -/
def clothBody : SequenceBody :=
  { subject := "rp_aaron_posed_002",
    body_path := bodyAssetPath "rp_aaron_posed_002" "rp_aaron_posed_002_0000",
    clothing_path := some (derivedClothingPath "rp_aaron_posed_002"
      "rp_aaron_posed_002_0000" "0000"),
    hair_path := none, animation_path := none,
    x := 0, y := 0, z := 0, yaw := 0, pitch := 0, roll := 0, start_frame := 0,
    texture_body := none, texture_clothing := some "outfit_03",
    texture_clothing_overlay := none }

/-- A run state as it stands right after some Group row opened a sequence
context (used to exercise the Body branch in witnesses). -/
def midState : RunState :=
  { initState with sequence_name := some "seq_w", sequence_frames := 2,
                   camera_pose := some pose0 }

/-- A `SequenceBody` as the Body branch builds it under POV (with the
skeletal reference strings), for `add_level_sequence`-level statements. -/
def povBody (bodyName : String) (yaw : ℚ) : SequenceBody :=
  { subject := "rp_aaron_posed_002",
    body_path := bodyAssetPath "rp_aaron_posed_002" bodyName,
    clothing_path := none, hair_path := none, animation_path := none,
    x := 0, y := 0, z := 0, yaw := yaw, pitch := 0, roll := 0,
    start_frame := 0, texture_body := none, texture_clothing := none,
    texture_clothing_overlay := none,
    skeletal_mesh_path := some (skelMeshPath "rp_aaron_posed_002" bodyName),
    skeletal_animation_path := some (skelAnimPath "rp_aaron_posed_002" bodyName) }

/-- The timeline `add_level_sequence` produces for a 2-frame HDRI
sequence named `w10` (no bodies) under `sceneAll`, duplicated from the
`_Hair`-suffixed template (used by the C10 witness). -/
def tlW10 : Timeline :=
  { source := .hdriTpl (level_sequence_hdri_template ++ "_Hair")
      (hdri_root ++ "sky_01" ++ hdri_suffix),
    displayRate := 30, playbackStart := -10, playbackEnd := 2,
    frameKeys := [(-10, -1), (0, 0), (1, 1)],
    sequenceNameDefault := some "w10",
    events := [.staticCamera pose0 none] }

/-- The timeline `add_level_sequence` produces for an empty-body static
sequence of 3 frames named `w2` under `sceneAll` (used by the C2
witness). -/
def tlW2 : Timeline :=
  { source := .scratch, displayRate := 30, playbackStart := -10,
    playbackEnd := 3, frameKeys := [(-10, -1), (0, 0), (1, 1), (2, 2)],
    sequenceNameDefault := some "w2",
    events := [.staticCamera pose0 none] }

/-! ## Helper lemmas and claim theorems -/

/-! # Helper lemmas -/

/-- A key absent from the dict has no lookup result. -/
lemma pyGet?_eq_none_of_not_has {d : List (String × String)} {k : String}
    (h : pyHas d k = false) : pyGet? d k = none := by
  unfold pyGet?
  rw [List.find?_eq_none.mpr]
  · rfl
  · intro x hx
    have := List.any_eq_false.mp h x (List.mem_reverse.mp hx)
    simpa using this

/-! # Claim theorems -/

/-- C6: `get_focal_length` computes `sensorWidth / (2·tan(radians(hfov)/2))`
(definitionally); for a fixed positive sensor width it is strictly
decreasing in the HFOV on (0°,180°); at sensor width 24 and HFOV 90° it
is exactly 12. -/
theorem C6_focal_length (sw a b : ℝ) (hsw : 0 < sw) (ha : 0 < a) (hab : a < b)
    (hb : b < 180) :
    get_focal_length sw b < get_focal_length sw a ∧ get_focal_length 24 90 = 12 := by
  have hpi := Real.pi_pos
  constructor
  · unfold get_focal_length radians
    have hx : 0 < a * Real.pi / 180 / 2 := by positivity
    have hxy : a * Real.pi / 180 / 2 < b * Real.pi / 180 / 2 := by
      have : a * Real.pi < b * Real.pi := by nlinarith
      linarith
    have hy2 : b * Real.pi / 180 / 2 < Real.pi / 2 := by nlinarith
    have ht1 : 0 < Real.tan (a * Real.pi / 180 / 2) :=
      Real.tan_pos_of_pos_of_lt_pi_div_two hx (lt_trans hxy hy2)
    have ht2 : Real.tan (a * Real.pi / 180 / 2) < Real.tan (b * Real.pi / 180 / 2) :=
      Real.tan_lt_tan_of_nonneg_of_lt_pi_div_two hx.le hy2 hxy
    exact div_lt_div_of_pos_left hsw (by linarith) (by linarith)
  · unfold get_focal_length radians
    have h : (90 : ℝ) * Real.pi / 180 / 2 = Real.pi / 4 := by ring
    rw [h, Real.tan_pi_div_four]
    norm_num

/-- Witness for C6 at sensor width 24 and HFOVs 60° < 90°. -/
theorem C6_focal_length_w :
    get_focal_length 24 90 < get_focal_length 24 60 ∧ get_focal_length 24 90 = 12 :=
  C6_focal_length 24 60 90 (by norm_num) (by norm_num) (by norm_num) (by norm_num)

/-- C7: the POV camera offset rotation follows
`x' = x·cosθ − y·sinθ, y' = x·sinθ + y·cosθ` (first conjunct — the code's
lines 697-699); rotating `(0.2, 0)` by yaw 90° gives `(0, 0.2)` and by
180° gives `(−0.2, 0)` — exactly, over ℝ; and the rotated offset (with
the z component kept) is what is applied as the camera translation
relative to its attach parent (`pov_camera_translation`, lines 700-714). -/
theorem C7_offset_rotation :
    (∀ x y θ : ℝ, rotate_local_offset x y θ =
      (x * Real.cos (radians θ) - y * Real.sin (radians θ),
       x * Real.sin (radians θ) + y * Real.cos (radians θ))) ∧
    rotate_local_offset 0.2 0 90 = (0, 0.2) ∧
    rotate_local_offset 0.2 0 180 = (-0.2, 0) ∧
    (∀ θ : ℝ, pov_camera_translation θ =
      ((rotate_local_offset 0 0 θ).1, (rotate_local_offset 0 0 θ).2, 0.20)) := by
  refine ⟨fun x y θ => rfl, ?_, ?_, fun θ => rfl⟩
  · unfold rotate_local_offset
    have h : radians 90 = Real.pi / 2 := by unfold radians; ring
    rw [h, Real.cos_pi_div_two, Real.sin_pi_div_two]
    norm_num
  · unfold rotate_local_offset
    have h : radians 180 = Real.pi := by unfold radians; ring
    rw [h, Real.cos_pi, Real.sin_pi]
    norm_num

/-- C4: an absent `view_id`, or one outside `{0..5}`, resolves the POV
rotation offset to all-zero; `pov_rotation_offset` is a total function
(the code's if/else), so no input raises. -/
theorem C4_view_id_fallback (view_id : Option Int)
    (h : view_id = none ∨ ∃ k, view_id = some k ∧ (k < 0 ∨ 5 < k)) :
    pov_rotation_offset view_id = (0, 0, 0) := by
  rcases h with h | ⟨k, hk, hout⟩
  · simp [h, pov_rotation_offset]
  · subst hk
    have hv : view_rotations k = none := by
      unfold view_rotations
      rcases hout with h1 | h1 <;> (repeat rw [if_neg (by omega)])
    simp [pov_rotation_offset, hv]

/-- Witness for C4 at the out-of-range `view_id = 7`. -/
theorem C4_view_id_fallback_w : pov_rotation_offset (some 7) = (0, 0, 0) :=
  C4_view_id_fallback (some 7) (Or.inr ⟨7, rfl, Or.inr (by norm_num)⟩)

/-- C2: every timeline `add_level_sequence` actually produces has playback
range exactly `[-WARMUP_FRAMES, frame_count]`, and when the ground-truth
logger actor is present its integer `Frame` channel holds exactly
`frame_count + 1` keys: `-1` at `-WARMUP_FRAMES` and the literal frame
index at each of `0..frame_count-1`. -/
theorem C2_playback_and_frame_keys (sc : Scene) (name : String)
    (camera_pose : CameraPose) (bodies : List SequenceBody) (frames : Int)
    (hdri : Option String) (hfov : Option ℚ) (mv : String) (ryaw : Option ℚ)
    (rloc : Option (ℚ × ℚ × ℚ)) (pov : Bool) (vid : Option Int) (tpl : String)
    (t : Timeline) (hfr : 0 ≤ frames)
    (h : add_level_sequence sc name camera_pose bodies frames hdri hfov mv
      ryaw rloc pov vid tpl = some t) :
    t.playbackStart = -WARMUP_FRAMES ∧ t.playbackEnd = frames ∧
      (sc.hasLogger = true →
        t.frameKeys = (-WARMUP_FRAMES, -1) ::
          (List.range frames.toNat).map (fun (i : Nat) => ((i : Int), (i : Int))) ∧
        (t.frameKeys.length : Int) = frames + 1) := by
  simp only [add_level_sequence] at h
  cases hsrc : resolveSource sc hdri mv tpl with
  | none => rw [hsrc] at h; exact absurd h (by simp)
  | some src =>
    rw [hsrc] at h
    cases hroot : cameraRootStep sc (cameraSetup pov mv camera_pose hfov).2
        ryaw rloc with
    | none => rw [hroot] at h; exact absurd h (by simp)
    | some rootEvs =>
      rw [hroot] at h
      cases hpb : processBodies sc pov vid frames
          ((Option.map (fun b => b.yaw) bodies.head?).getD 0) bodies 0 none with
      | none => rw [hpb] at h; exact absurd h (by simp)
      | some pr =>
        rw [hpb] at h
        cases pr with
        | mk bodyEvs rig =>
          have ht := Option.some.inj h
          subst ht
          refine ⟨rfl, rfl, fun hlog => ?_⟩
          constructor
          · simp [hlog, frameKeysFor, WARMUP_FRAMES]
          · have h1 : (frameKeysFor frames).length = frames.toNat + 1 := by
              simp [frameKeysFor, WARMUP_FRAMES]
            rw [show (Timeline.frameKeys
              { source := src, displayRate := 30, playbackStart := -WARMUP_FRAMES,
                playbackEnd := frames,
                frameKeys := if sc.hasLogger = true then frameKeysFor frames else [],
                sequenceNameDefault := if sc.hasLogger = true then some name else none,
                events := (cameraSetup pov mv camera_pose hfov).1 ++ rootEvs ++ bodyEvs }) =
                if sc.hasLogger = true then frameKeysFor frames else [] from rfl,
              if_pos hlog, h1]
            omega

/-- Witness for C2: the static 3-frame sequence `w2` with no bodies under
`sceneAll`. -/
theorem C2_playback_and_frame_keys_w :
    tlW2.playbackStart = -WARMUP_FRAMES ∧ tlW2.playbackEnd = 3 ∧
      (sceneAll.hasLogger = true →
        tlW2.frameKeys = (-WARMUP_FRAMES, -1) ::
          (List.range (3 : Int).toNat).map (fun (i : Nat) => ((i : Int), (i : Int))) ∧
        (tlW2.frameKeys.length : Int) = 3 + 1) :=
  C2_playback_and_frame_keys sceneAll "w2" pose0 [] 3 none none "Static" none
    none false none level_sequence_hdri_template tlW2 (by norm_num) (by decide)

/-- When a Group Comment parses and lacks `cameraroot_x`, the parsed
config carries no new camera-root location. -/
lemma parseGroupConfig_newLoc_none {comment : String}
    {cfg : List (String × String)} {c : GroupCfg}
    (hcfg : parseConfig comment = some cfg)
    (hnox : pyHas cfg "cameraroot_x" = false)
    (hc : parseGroupConfig comment = some c) : c.newLoc = none := by
  unfold parseGroupConfig at hc
  rw [hcfg] at hc
  simp only [hnox, Bool.false_eq_true, if_false] at hc
  repeat' split at hc
  all_goals first
    | exact absurd hc (fun hh => Option.noConfusion hh)
    | (have h2 := Option.some.inj hc; subst h2; rfl)

/-- C9: a Group row that omits the `cameraroot_x/y/z` keys leaves
`cameraroot_location` exactly as earlier groups left it (there is no
`else` resetting it, lines 847-851), while `hdri`, `camera_hfov`,
`pov_camera`, `view_id` and `cameraroot_yaw` are recomputed from the row
alone — identical results from any two prior states. -/
theorem C9_cameraroot_persistence (r : Row) (s₁ s₂ : RunState)
    (cfg : List (String × String)) (c : GroupCfg)
    (hcfg : parseConfig r.comment = some cfg)
    (hnox : pyHas cfg "cameraroot_x" = false)
    (hc : parseGroupConfig r.comment = some c) :
    (groupStep r s₁).cameraroot_location = s₁.cameraroot_location ∧
    (groupStep r s₁).hdri_name = (groupStep r s₂).hdri_name ∧
    (groupStep r s₁).camera_hfov = (groupStep r s₂).camera_hfov ∧
    (groupStep r s₁).pov_camera = (groupStep r s₂).pov_camera ∧
    (groupStep r s₁).view_id = (groupStep r s₂).view_id ∧
    (groupStep r s₁).cameraroot_yaw = (groupStep r s₂).cameraroot_yaw := by
  have hnew := parseGroupConfig_newLoc_none hcfg hnox hc
  unfold groupStep
  rw [hc]
  simp [hnew]

/-- Witness for C9: `plainGroupRow` keeps a previously parsed location
`(1,2,3)` while resetting the other fields identically from two different
prior states. -/
theorem C9_cameraroot_persistence_w :
    (groupStep plainGroupRow
      { initState with cameraroot_location := some (1, 2, 3) }).cameraroot_location
        = ({ initState with cameraroot_location := some (1, 2, 3) } :
            RunState).cameraroot_location ∧
    (groupStep plainGroupRow
      { initState with cameraroot_location := some (1, 2, 3) }).hdri_name =
      (groupStep plainGroupRow initState).hdri_name ∧
    (groupStep plainGroupRow
      { initState with cameraroot_location := some (1, 2, 3) }).camera_hfov =
      (groupStep plainGroupRow initState).camera_hfov ∧
    (groupStep plainGroupRow
      { initState with cameraroot_location := some (1, 2, 3) }).pov_camera =
      (groupStep plainGroupRow initState).pov_camera ∧
    (groupStep plainGroupRow
      { initState with cameraroot_location := some (1, 2, 3) }).view_id =
      (groupStep plainGroupRow initState).view_id ∧
    (groupStep plainGroupRow
      { initState with cameraroot_location := some (1, 2, 3) }).cameraroot_yaw =
      (groupStep plainGroupRow initState).cameraroot_yaw :=
  C9_cameraroot_persistence plainGroupRow
    { initState with cameraroot_location := some (1, 2, 3) } initState
    [("sequence_name", "seq_s"), ("frames", "2"), ("hdri", "sky_01")]
    ⟨"seq_s", 2, some "sky_01", none, false, none, none, none⟩
    (by decide) (by decide) (by decide)

/-- `flushSeq` never touches the module-global HDRI template. -/
lemma flushSeq_template (sc : Scene) (mv : String) (s : RunState) :
    (flushSeq sc mv s).hdriTemplate = s.hdriTemplate := by
  unfold flushSeq
  repeat' split
  all_goals rfl

/-- The Group branch never touches the module-global HDRI template. -/
lemma groupStep_template (r : Row) (s : RunState) :
    (groupStep r s).hdriTemplate = s.hdriTemplate := by
  unfold groupStep
  split <;> rfl

/-- Once its `Index` and Comment cells parse, the Body branch rebinds the
template by exactly the guarded `"_Hair"` append of lines 895-897. -/
lemma bodyStep_template (sc : Scene) (mv : String) (n : Nat)
    (next : Option Row) (r : Row) (s : RunState) (k : Int) (bc : BodyCfg)
    (hk : pyToInt? r.index = some k)
    (hbc : parseBodyConfig r.comment = some bc) :
    (bodyStep sc mv n next r s).hdriTemplate =
      if bc.hair.isSome && !pyEndsWith s.hdriTemplate "_Hair" then
        s.hdriTemplate ++ "_Hair" else s.hdriTemplate := by
  simp only [bodyStep, hk, hbc]
  repeat' split
  all_goals simp [flushSeq_template]

/-- The Body branch cannot change a template that already ends in
`"_Hair"` (any path, parse failures included). -/
lemma bodyStep_template_keep (sc : Scene) (mv : String) (n : Nat)
    (next : Option Row) (r : Row) (s : RunState)
    (hEnd : pyEndsWith s.hdriTemplate "_Hair" = true) :
    (bodyStep sc mv n next r s).hdriTemplate = s.hdriTemplate := by
  cases hk : pyToInt? r.index with
  | none => simp only [bodyStep, hk]
  | some k =>
    cases hbc : parseBodyConfig r.comment with
    | none => simp only [bodyStep, hk, hbc]
    | some bc =>
      rw [bodyStep_template sc mv n next r s k bc hk hbc, hEnd]
      simp

/-- No row kind can change a template that already ends in `"_Hair"`. -/
lemma stepRow_template_keep (sc : Scene) (mv : String) (n : Nat)
    (next : Option Row) (r : Row) (s : RunState)
    (hEnd : pyEndsWith s.hdriTemplate "_Hair" = true) :
    (stepRow sc mv n next r s).hdriTemplate = s.hdriTemplate := by
  unfold stepRow
  repeat' split
  all_goals first
    | rfl
    | exact groupStep_template r s
    | exact bodyStep_template_keep sc mv n next r s hEnd

/-- The whole remaining scan keeps a `"_Hair"`-suffixed template
unchanged. -/
lemma runAux_template_keep (sc : Scene) (mv : String) (n : Nat) :
    ∀ (rows : List Row) (s : RunState),
    pyEndsWith s.hdriTemplate "_Hair" = true →
    (runAux sc mv n rows s).hdriTemplate = s.hdriTemplate
  | [], _, _ => rfl
  | r :: rest, s, hEnd => by
    unfold runAux
    split
    · rfl
    · have h1 := stepRow_template_keep sc mv n rest.head? r s hEnd
      have h2 := runAux_template_keep sc mv n rest
        (stepRow sc mv n rest.head? r s) (by rw [h1]; exact hEnd)
      rw [h2, h1]

/-- An HDRI request duplicates exactly the template handed in. -/
lemma resolveSource_hdri {sc : Scene} {hdriName mv tpl : String}
    {src : TLSource}
    (hs : resolveSource sc (some hdriName) mv tpl = some src) :
    src = .hdriTpl tpl (hdri_root ++ hdriName ++ hdri_suffix) := by
  simp only [resolveSource] at hs
  repeat' split at hs
  all_goals simp_all

/-- C10: (1) a Body row with a `hair` key rebinds the module-global HDRI
template from its initial value to the `"_Hair"`-suffixed one; (2) once
suffixed, no later row of the run ever changes it again (the suffix is
appended at most once); (3) every later sequence that requests an `hdri`
is duplicated from whatever the template global then holds — hence from
`LS_Template_HDRI_Hair`, even if that sequence's own bodies have no
hair. -/
theorem C10_hair_template :
    (∀ (sc : Scene) (mv : String) (n : Nat) (next : Option Row) (r : Row)
       (s : RunState) (k : Int) (bc : BodyCfg),
       pyToInt? r.index = some k → parseBodyConfig r.comment = some bc →
       bc.hair.isSome = true → s.hdriTemplate = level_sequence_hdri_template →
       (bodyStep sc mv n next r s).hdriTemplate =
         level_sequence_hdri_template ++ "_Hair") ∧
    (∀ (sc : Scene) (mv : String) (n : Nat) (rows : List Row) (s : RunState),
       s.hdriTemplate = level_sequence_hdri_template ++ "_Hair" →
       (runAux sc mv n rows s).hdriTemplate = s.hdriTemplate) ∧
    (∀ (sc : Scene) (name : String) (cp : CameraPose)
       (bodies : List SequenceBody) (frames : Int) (hd : String)
       (hfov : Option ℚ) (mv : String) (ryaw : Option ℚ)
       (rloc : Option (ℚ × ℚ × ℚ)) (pov : Bool) (vid : Option Int)
       (tpl : String) (t : Timeline),
       add_level_sequence sc name cp bodies frames (some hd) hfov mv ryaw rloc
         pov vid tpl = some t →
       t.source = .hdriTpl tpl (hdri_root ++ hd ++ hdri_suffix)) := by
  refine ⟨?_, ?_, ?_⟩
  · intro sc mv n next r s k bc hk hbc hhair hs
    rw [bodyStep_template sc mv n next r s k bc hk hbc, hs, hhair]
    norm_num [show pyEndsWith level_sequence_hdri_template "_Hair" = false from
      by decide]
  · intro sc mv n rows s hs
    exact runAux_template_keep sc mv n rows s (by rw [hs]; decide)
  · intro sc name cp bodies frames hd hfov mv ryaw rloc pov vid tpl t hadd
    simp only [add_level_sequence] at hadd
    cases hsrc : resolveSource sc (some hd) mv tpl with
    | none => rw [hsrc] at hadd; exact absurd hadd (by simp)
    | some src =>
      rw [hsrc] at hadd
      cases hroot : cameraRootStep sc (cameraSetup pov mv cp hfov).2 ryaw rloc with
      | none => rw [hroot] at hadd; exact absurd hadd (by simp)
      | some rootEvs =>
        rw [hroot] at hadd
        cases hpb : processBodies sc pov vid frames
            ((Option.map (fun b => b.yaw) bodies.head?).getD 0) bodies 0 none with
        | none => rw [hpb] at hadd; exact absurd hadd (by simp)
        | some pr =>
          rw [hpb] at hadd
          cases pr with
          | mk bodyEvs rig =>
            have ht := Option.some.inj hadd
            subst ht
            exact resolveSource_hdri hsrc

/-- Witness for C10: the hair Body row flips the template once; a later
one-row scan started on the suffixed template leaves it unchanged; and
the sequence `w10` (whose body list is hairless) duplicates from the
suffixed template. -/
theorem C10_hair_template_w :
    (bodyStep sceneAll "Static" 2 none hairBodyRow midState).hdriTemplate =
      level_sequence_hdri_template ++ "_Hair" ∧
    (runAux sceneAll "Static" 1 [hairBodyRow]
      { initState with hdriTemplate :=
          level_sequence_hdri_template ++ "_Hair" }).hdriTemplate =
      ({ initState with hdriTemplate :=
          level_sequence_hdri_template ++ "_Hair" } : RunState).hdriTemplate ∧
    tlW10.source = .hdriTpl (level_sequence_hdri_template ++ "_Hair")
      (hdri_root ++ "sky_01" ++ hdri_suffix) :=
  ⟨C10_hair_template.1 sceneAll "Static" 2 none hairBodyRow midState 1
      ⟨0, some "skin_m01", none, none, some "SMPLX_M_Hair_A"⟩ (by decide)
      (by decide) (by decide) (by decide),
   C10_hair_template.2.1 sceneAll "Static" 1 [hairBodyRow]
      { initState with hdriTemplate :=
          level_sequence_hdri_template ++ "_Hair" } (by decide),
   C10_hair_template.2.2 sceneAll "w10" pose0 [] 2 "sky_01" none "Static" none
      none false none (level_sequence_hdri_template ++ "_Hair") tlW10
      (by decide)⟩

/-- Once aborted, the scan is frozen. -/
lemma runAux_frozen (sc : Scene) (mv : String) (n : Nat) :
    ∀ (rows : List Row) (s : RunState), s.aborted.isSome = true →
    runAux sc mv n rows s = s
  | [], _, _ => rfl
  | _ :: _, _, h => by simp [runAux, h]

/-- A Group-typed row is handled by the Group branch, whatever follows
it. -/
lemma stepRow_group {sc : Scene} {mv : String} {n : Nat} {next : Option Row}
    {r : Row} {s : RunState} (hg : r.rtype = "Group") :
    stepRow sc mv n next r s = groupStep r s := by
  unfold stepRow
  rw [hg]
  simp

/-- A Group row whose Comment (once parseable) is missing
`sequence_name` or `frames` aborts the Group branch (Python: `KeyError`;
an unparseable Comment aborts it too). -/
lemma groupStep_bad_aborts (g : Row) (s : RunState)
    (hbad : ∀ cfg, parseConfig g.comment = some cfg →
      pyHas cfg "sequence_name" = false ∨ pyHas cfg "frames" = false) :
    (groupStep g s).aborted = some .configParse := by
  have hpc : parseGroupConfig g.comment = none := by
    unfold parseGroupConfig
    cases hc : parseConfig g.comment with
    | none => rfl
    | some cfg =>
      dsimp only
      rcases hbad cfg hc with hmiss | hmiss
      · rw [pyGet?_eq_none_of_not_has hmiss]
      · cases hn : pyGet? cfg "sequence_name" with
        | none => rfl
        | some nm =>
          dsimp only
          rw [pyGet?_eq_none_of_not_has hmiss]
  unfold groupStep
  rw [hpc]

/-- Appending rows after the bad Group row changes nothing: the scans of
`pre ++ [g]` and of `pre ++ g :: post` coincide. -/
lemma runAux_truncate (sc : Scene) (mv : String) (n : Nat) (g : Row)
    (post : List Row) (hg : g.rtype = "Group")
    (habort : ∀ s, (groupStep g s).aborted.isSome = true) :
    ∀ (pre : List Row) (s : RunState),
    runAux sc mv n (pre ++ g :: post) s = runAux sc mv n (pre ++ [g]) s
  | [], s => by
    simp only [List.nil_append]
    unfold runAux
    split
    · rfl
    · simp only [runAux]
      rw [stepRow_group hg, stepRow_group hg,
        runAux_frozen sc mv n post (groupStep g s) (habort s)]
  | p :: pre', s => by
    simp only [List.cons_append]
    unfold runAux
    split
    · rfl
    · have hnext : (pre' ++ g :: post).head? = (pre' ++ [g]).head? := by
        cases pre' <;> rfl
      rw [hnext]
      exact runAux_truncate sc mv n g post hg habort pre' _

/-- Every scan whose row list ends at the bad Group row ends aborted. -/
lemma runAux_bad_tail (sc : Scene) (mv : String) (n : Nat) (g : Row)
    (hg : g.rtype = "Group")
    (habort : ∀ s, (groupStep g s).aborted.isSome = true) :
    ∀ (pre : List Row) (s : RunState),
    (runAux sc mv n (pre ++ [g]) s).aborted.isSome = true
  | [], s => by
    simp only [List.nil_append]
    unfold runAux
    split
    · assumption
    · simp only [runAux]
      rw [stepRow_group hg]
      exact habort s
  | p :: pre', s => by
    simp only [List.cons_append]
    unfold runAux
    split
    · assumption
    · exact runAux_bad_tail sc mv n g hg habort pre' _

/-- C5: a Group row whose Comment mapping lacks `sequence_name` or
`frames` makes the whole run identical to the run truncated right after
that Group row — so no Body row of its group (nor any later row) is
consumed: in particular the trace of body-asset registry lookups is
unchanged — and the run ends aborted. -/
theorem C5_missing_key_aborts (sc : Scene) (mv : String) (pre post : List Row)
    (g : Row) (hg : g.rtype = "Group")
    (hbad : ∀ cfg, parseConfig g.comment = some cfg →
      pyHas cfg "sequence_name" = false ∨ pyHas cfg "frames" = false) :
    runCsv sc mv (pre ++ g :: post) =
      runAux sc mv (pre ++ g :: post).length (pre ++ [g]) initState ∧
    (runCsv sc mv (pre ++ g :: post)).aborted.isSome = true ∧
    (runCsv sc mv (pre ++ g :: post)).resolvedBodies =
      (runAux sc mv (pre ++ g :: post).length (pre ++ [g])
        initState).resolvedBodies := by
  have habort : ∀ s, (groupStep g s).aborted.isSome = true := fun s => by
    rw [groupStep_bad_aborts g s hbad]
    rfl
  have htr := runAux_truncate sc mv (pre ++ g :: post).length g post hg habort
    pre initState
  refine ⟨htr, ?_, by rw [runCsv, htr]⟩
  rw [runCsv, htr]
  exact runAux_bad_tail sc mv (pre ++ g :: post).length g hg habort pre initState

/-- Witness for C5: `badGroupRow` (`frames=100` but no `sequence_name`)
followed by one Body row. -/
theorem C5_missing_key_aborts_w :
    runCsv sceneAll "Static" ([] ++ badGroupRow :: [afterBadBodyRow]) =
      runAux sceneAll "Static" ([] ++ badGroupRow :: [afterBadBodyRow]).length
        ([] ++ [badGroupRow]) initState ∧
    (runCsv sceneAll "Static"
      ([] ++ badGroupRow :: [afterBadBodyRow])).aborted.isSome = true ∧
    (runCsv sceneAll "Static"
      ([] ++ badGroupRow :: [afterBadBodyRow])).resolvedBodies =
      (runAux sceneAll "Static" ([] ++ badGroupRow :: [afterBadBodyRow]).length
        ([] ++ [badGroupRow]) initState).resolvedBodies :=
  C5_missing_key_aborts sceneAll "Static" [] [afterBadBodyRow] badGroupRow rfl
    (by
      intro cfg h
      have h2 : parseConfig badGroupRow.comment =
          some [("frames", "100"), ("camera_hfov", "60")] := by decide
      rw [h2] at h
      have h3 := Option.some.inj h
      subst h3
      left
      decide)

/-- C3 (evaluation at the failing input): in a POV group with two Body
rows, the POV-camera block — which sits *inside* the per-body loop
(lines 616-743), although its own comment says it was moved outside —
synthesizes and retargets a POV camera after the FIRST body and again
after the second.  The run succeeds and its single built timeline holds
two `povCameraSpawn` events, interleaved between the body tracks; the
claim (and §4.4 step 7 of the spec) predict exactly one, emitted only
after all bodies. -/
theorem C3_pov_camera_per_body :
    (runCsv sceneAll "Static" povRows).aborted = none ∧
    ((runCsv sceneAll "Static" povRows).built.map
      (fun b => (b.timeline.events.filter isPovCameraSpawn).length)) = [2] ∧
    ((runCsv sceneAll "Static" povRows).built.map
      (fun b => b.timeline.events)) =
      [[.povPlaceholderCut,
        .bodyTrack 0 false (0, 3), .rigSpawn 0,
        .povCameraSpawn 90 (0, 0, 180) "head" (-10, 3), .cameraCutRetarget,
        .bodyTrack 1 false (0, 3),
        .povCameraSpawn 90 (0, 0, 180) "head" (-10, 3), .cameraCutRetarget]] := by
  refine ⟨by decide, by decide, by decide⟩

/-- `flushSeq` leaves the accumulated bodies untouched. -/
lemma flushSeq_bodies (sc : Scene) (mv : String) (s : RunState) :
    (flushSeq sc mv s).sequence_bodies = s.sequence_bodies := by
  unfold flushSeq
  repeat' split
  all_goals rfl

/-- A Body row that parses appends exactly one `SequenceBody`, carrying
the Comment's overlay texture and, iff `texture_clothing` is present,
the derived `_clo` clothing path. -/
lemma bodyStep_appends {sc : Scene} {mv : String} {n : Nat}
    {next : Option Row} {r : Row} {s : RunState} {bc : BodyCfg}
    {sub anim : String}
    (hbc : parseBodyConfig r.comment = some bc)
    (hsn : splitBodyName? r.body = some (sub, anim))
    (hab : (bodyStep sc mv n next r s).aborted = none) :
    ∃ b, (bodyStep sc mv n next r s).sequence_bodies =
        s.sequence_bodies ++ [b] ∧
      b.texture_clothing_overlay = bc.texture_clothing_overlay ∧
      b.clothing_path = (if bc.texture_clothing.isSome then
        some (derivedClothingPath sub r.body anim) else none) := by
  cases hk : pyToInt? r.index with
  | none => simp [bodyStep, hk] at hab
  | some k =>
    simp only [bodyStep, hk, hbc, hsn] at hab ⊢
    cases hae : sc.assetExists (bodyAssetPath sub r.body) with
    | false => simp [hae] at hab
    | true =>
      simp only [hae, Bool.not_true, Bool.false_eq_true, if_false] at hab ⊢
      cases htc : bc.texture_clothing with
      | some tc =>
        simp only [htc, Option.isSome_some, if_true] at hab ⊢
        cases hce : sc.assetExists (derivedClothingPath sub r.body anim) with
        | false => simp [hce] at hab
        | true =>
          simp only [hce, Bool.not_true, Bool.false_eq_true, if_false] at hab ⊢
          refine Exists.intro
            { subject := sub, body_path := bodyAssetPath sub r.body,
              clothing_path := some (derivedClothingPath sub r.body anim),
              hair_path := Option.map hairAssetPath bc.hair,
              animation_path := if (Option.map hairAssetPath bc.hair).isSome then
                some (skelAnimPath sub r.body) else none,
              x := r.x, y := r.y, z := r.z, yaw := r.yaw, pitch := r.pitch,
              roll := r.roll, start_frame := bc.start_frame,
              texture_body := bc.texture_body, texture_clothing := some tc,
              texture_clothing_overlay := bc.texture_clothing_overlay,
              skeletal_mesh_path := if s.pov_camera then
                some (skelMeshPath sub r.body) else none,
              skeletal_animation_path := if s.pov_camera then
                some (skelAnimPath sub r.body) else none }
            ⟨?_, rfl, rfl⟩
          split
          · rw [flushSeq_bodies]
          · split
            · rfl
            · split
              · rw [flushSeq_bodies]
              · rfl
      | none =>
        simp only [htc, Option.isSome_none, Bool.not_true, Bool.false_eq_true,
          if_false] at hab ⊢
        refine Exists.intro
          { subject := sub, body_path := bodyAssetPath sub r.body,
              clothing_path := none,
              hair_path := Option.map hairAssetPath bc.hair,
              animation_path := if (Option.map hairAssetPath bc.hair).isSome then
                some (skelAnimPath sub r.body) else none,
              x := r.x, y := r.y, z := r.z, yaw := r.yaw, pitch := r.pitch,
              roll := r.roll, start_frame := bc.start_frame,
              texture_body := bc.texture_body, texture_clothing := none,
              texture_clothing_overlay := bc.texture_clothing_overlay,
              skeletal_mesh_path := if s.pov_camera then
                some (skelMeshPath sub r.body) else none,
              skeletal_animation_path := if s.pov_camera then
                some (skelAnimPath sub r.body) else none }
          ⟨?_, rfl, rfl⟩
        split
        · rw [flushSeq_bodies]
        · split
          · rfl
          · split
            · rw [flushSeq_bodies]
            · rfl

/-- When `texture_clothing` is present but the registry lacks the derived
`_clo` asset, the Body branch aborts the scan. -/
lemma bodyStep_clothing_fatal {sc : Scene} {mv : String} {n : Nat}
    {next : Option Row} {r : Row} {s : RunState} {bc : BodyCfg}
    {sub anim : String}
    (hbc : parseBodyConfig r.comment = some bc)
    (hsn : splitBodyName? r.body = some (sub, anim))
    (htc : bc.texture_clothing.isSome = true)
    (hmiss : sc.assetExists (derivedClothingPath sub r.body anim) = false) :
    (bodyStep sc mv n next r s).aborted.isSome = true := by
  cases hk : pyToInt? r.index with
  | none => simp [bodyStep, hk]
  | some k =>
    simp only [bodyStep, hk, hbc, hsn]
    cases hae : sc.assetExists (bodyAssetPath sub r.body) with
    | false => simp [hae]
    | true =>
      simp only [hae, Bool.not_true, Bool.false_eq_true, if_false, htc, if_true]
      simp [hmiss]

/-- A body in non-overlay mode whose clothing asset fails to load is
fatal for the sequence. -/
lemma processBody_clothing_fatal {sc : Scene} {pov : Bool} {vid : Option Int}
    {fr : Int} {yaw0 : ℚ} {i : Nat} {b : SequenceBody} {rig : Option Unit}
    {cp : String}
    (hov : b.texture_clothing_overlay = none)
    (hcp : b.clothing_path = some cp)
    (hld : sc.loads cp = false) :
    processBody sc pov vid fr yaw0 i b rig = none := by
  unfold processBody
  cases hbl : sc.loads b.body_path with
  | false => simp [hbl]
  | true =>
    simp only [hbl, Bool.not_true, Bool.false_eq_true, if_false, hov, hcp, hld,
      Bool.not_false, if_true]
    split
    · rfl
    · next e rg heq =>
      rw [ite_self] at heq
      exact absurd heq (fun hh => Option.noConfusion hh)

/-- The rig step emits either nothing or a single rig spawn. -/
lemma povRigStep_evs (sc : Scene) (pov : Bool) (i : Nat) (b : SequenceBody)
    (rig : Option Unit) :
    (povRigStep sc pov i b rig).1 = [] ∨
    (povRigStep sc pov i b rig).1 = [Ev.rigSpawn i] := by
  unfold povRigStep
  repeat' split
  all_goals simp

/-- The hair step emits either nothing or a single head-socket attach. -/
lemma hairStep_evs {sc : Scene} {i : Nat} {astart aend : Int}
    {b : SequenceBody} {hevs : List Ev}
    (h : hairStep sc i astart aend b = some hevs) :
    hevs = [] ∨ ∃ rng, hevs = [Ev.hairAttach i "head" rng] := by
  unfold hairStep at h
  repeat' split at h
  all_goals first
    | exact absurd h (fun hh => Option.noConfusion hh)
    | (have h2 := Option.some.inj h; subst h2; simp)

/-- The POV block emits either nothing or a camera spawn plus the
camera-cut retarget. -/
lemma povBlockStep_evs {pov : Bool} {rig : Option Unit} {vid : Option Int}
    {yaw0 : ℚ} {fr : Int} {pevs : List Ev}
    (h : povBlockStep pov rig vid yaw0 fr = some pevs) :
    pevs = [] ∨ ∃ yw rot rng, pevs =
      [Ev.povCameraSpawn yw rot "head" rng, Ev.cameraCutRetarget] := by
  unfold povBlockStep at h
  repeat' split at h
  all_goals first
    | exact absurd h (fun hh => Option.noConfusion hh)
    | (have h2 := Option.some.inj h; subst h2; simp)

/-- A processed body's event list contains a clothing geometry track iff
the body is in non-overlay mode and carries a clothing path. -/
lemma processBody_clothing_mem {sc : Scene} {pov : Bool} {vid : Option Int}
    {fr : Int} {yaw0 : ℚ} {i : Nat} {b : SequenceBody} {rig : Option Unit}
    {pr : List Ev × Option Unit}
    (h : processBody sc pov vid fr yaw0 i b rig = some pr) :
    (∃ rng, Ev.clothingTrack i rng ∈ pr.1) ↔
      (b.texture_clothing_overlay = none ∧ b.clothing_path.isSome = true) := by
  have hre0 := povRigStep_evs sc pov i b rig
  unfold processBody at h
  cases hbl : sc.loads b.body_path with
  | false => rw [hbl] at h; exact absurd h (by simp)
  | true =>
    simp only [hbl, Bool.not_true, Bool.false_eq_true, if_false] at h
    rcases hprs : povRigStep sc pov i b rig with ⟨re, rg⟩
    rw [hprs] at h hre0
    cases hov : b.texture_clothing_overlay with
    | some ov =>
      simp only [hov] at h
      cases htb : b.texture_body with
      | none => simp only [htb] at h; exact absurd h (by simp)
      | some tb =>
        simp only [htb] at h
        cases hh : hairStep sc i (-b.start_frame) fr b with
        | none => rw [hh] at h; exact absurd h (by simp)
        | some hairEvs =>
          rw [hh] at h
          cases hp : povBlockStep pov rg vid yaw0 fr with
          | none => rw [hp] at h; exact absurd h (by simp)
          | some povEvs =>
            rw [hp] at h
            have h2 := Option.some.inj h
            subst h2
            rcases hre0 with hre | hre <;>
              rcases hairStep_evs hh with hha | ⟨rngh, hha⟩ <;>
              rcases povBlockStep_evs hp with hpv | ⟨yw, rot, rngp, hpv⟩ <;>
              subst hre <;> subst hha <;> subst hpv <;> simp [hov]
    | none =>
      simp only [hov] at h
      cases hmat : (match b.texture_body with
        | none => true
        | some tb => sc.loads (materialBodyPath tb)) with
      | false => simp [hmat] at h
      | true =>
        simp only [hmat, Bool.not_true, Bool.false_eq_true, if_false] at h
        cases hcp : b.clothing_path with
        | none =>
          simp only [hcp] at h
          cases hh : hairStep sc i (-b.start_frame) fr b with
          | none => rw [hh] at h; exact absurd h (by simp)
          | some hairEvs =>
            rw [hh] at h
            cases hp : povBlockStep pov rg vid yaw0 fr with
            | none => rw [hp] at h; exact absurd h (by simp)
            | some povEvs =>
              rw [hp] at h
              have h2 := Option.some.inj h
              subst h2
              rcases hre0 with hre | hre <;>
                rcases hairStep_evs hh with hha | ⟨rngh, hha⟩ <;>
                rcases povBlockStep_evs hp with hpv | ⟨yw, rot, rngp, hpv⟩ <;>
                subst hre <;> subst hha <;> subst hpv <;> simp [hcp]
        | some cp =>
          simp only [hcp] at h
          cases hlc : sc.loads cp with
          | false => simp [hlc] at h
          | true =>
            simp only [hlc, Bool.not_true, Bool.false_eq_true, if_false] at h
            cases hcm : (match b.texture_clothing with
              | none => true
              | some tc => sc.loads (materialClothingPath b.subject tc)) with
            | false => simp [hcm] at h
            | true =>
              simp only [hcm, Bool.not_true, Bool.false_eq_true, if_false] at h
              cases hh : hairStep sc i (-b.start_frame) fr b with
              | none => rw [hh] at h; exact absurd h (by simp)
              | some hairEvs =>
                rw [hh] at h
                cases hp : povBlockStep pov rg vid yaw0 fr with
                | none => rw [hp] at h; exact absurd h (by simp)
                | some povEvs =>
                  rw [hp] at h
                  have h2 := Option.some.inj h
                  subst h2
                  refine ⟨fun _ => ⟨rfl, by simp [hcp]⟩,
                    fun _ => ⟨(-b.start_frame, fr), by simp⟩⟩

/-- C8, in four parts over the two places the claim touches.  Parse side
(Body branch of `__main__`): (1) a Body row that parses appends exactly
one `SequenceBody` whose `clothing_path` is the derived `_clo` path iff
its Comment has `texture_clothing` (and whose overlay field is the
Comment's); (2) when `texture_clothing` is present but the registry has
no asset at the derived `_clo` path, the scan aborts.  Track side
(`add_level_sequence` body loop): (3) a processed body's events contain a
clothing geometry track iff the body has no overlay texture and carries
a clothing path; (4) a body with a clothing path, no overlay, and a
clothing asset that fails to load is fatal for its sequence. -/
theorem C8_clothing_iff :
    (∀ (sc : Scene) (mv : String) (n : Nat) (next : Option Row) (r : Row)
       (s : RunState) (bc : BodyCfg) (sub anim : String),
       parseBodyConfig r.comment = some bc →
       splitBodyName? r.body = some (sub, anim) →
       (bodyStep sc mv n next r s).aborted = none →
       ∃ b, (bodyStep sc mv n next r s).sequence_bodies =
           s.sequence_bodies ++ [b] ∧
         b.texture_clothing_overlay = bc.texture_clothing_overlay ∧
         b.clothing_path = (if bc.texture_clothing.isSome then
           some (derivedClothingPath sub r.body anim) else none)) ∧
    (∀ (sc : Scene) (mv : String) (n : Nat) (next : Option Row) (r : Row)
       (s : RunState) (bc : BodyCfg) (sub anim : String),
       parseBodyConfig r.comment = some bc →
       splitBodyName? r.body = some (sub, anim) →
       bc.texture_clothing.isSome = true →
       sc.assetExists (derivedClothingPath sub r.body anim) = false →
       (bodyStep sc mv n next r s).aborted.isSome = true) ∧
    (∀ (sc : Scene) (pov : Bool) (vid : Option Int) (fr : Int) (yaw0 : ℚ)
       (i : Nat) (b : SequenceBody) (rig : Option Unit)
       (pr : List Ev × Option Unit),
       processBody sc pov vid fr yaw0 i b rig = some pr →
       ((∃ rng, Ev.clothingTrack i rng ∈ pr.1) ↔
         (b.texture_clothing_overlay = none ∧ b.clothing_path.isSome = true))) ∧
    (∀ (sc : Scene) (pov : Bool) (vid : Option Int) (fr : Int) (yaw0 : ℚ)
       (i : Nat) (b : SequenceBody) (rig : Option Unit) (cp : String),
       b.texture_clothing_overlay = none → b.clothing_path = some cp →
       sc.loads cp = false →
       processBody sc pov vid fr yaw0 i b rig = none) :=
  ⟨fun _ _ _ _ _ _ _ _ _ hbc hsn hab => bodyStep_appends hbc hsn hab,
   fun _ _ _ _ _ _ _ _ _ hbc hsn htc hm => bodyStep_clothing_fatal hbc hsn htc hm,
   fun _ _ _ _ _ _ _ _ _ h => processBody_clothing_mem h,
   fun _ _ _ _ _ _ _ _ _ hov hcp hld => processBody_clothing_fatal hov hcp hld⟩

/-- Witness for C8: `clothBodyRow` (`texture_clothing`, no overlay) under
the all-assets scene appends a body with the derived `_clo` path; under
`sceneNoClothing` the scan aborts; `clothBody` processed by the body loop
emits a clothing track; and with its clothing asset unloadable the body
loop fails. -/
theorem C8_clothing_iff_w :
    (∃ b, (bodyStep sceneAll "Static" 1 none clothBodyRow
        midState).sequence_bodies = midState.sequence_bodies ++ [b] ∧
      b.texture_clothing_overlay =
        (⟨0, some "skin_m01", some "outfit_03", none, none⟩ :
          BodyCfg).texture_clothing_overlay ∧
      b.clothing_path = (if (⟨0, some "skin_m01", some "outfit_03", none,
          none⟩ : BodyCfg).texture_clothing.isSome then
        some (derivedClothingPath "rp_aaron_posed_002" clothBodyRow.body
          "0000") else none)) ∧
    (bodyStep sceneNoClothing "Static" 1 none clothBodyRow
      midState).aborted.isSome = true ∧
    ((∃ rng, Ev.clothingTrack 0 rng ∈
        ([Ev.bodyTrack 0 false (0, 2), Ev.clothingTrack 0 (0, 2)] :
          List Ev)) ↔
      (clothBody.texture_clothing_overlay = none ∧
        clothBody.clothing_path.isSome = true)) ∧
    processBody sceneNoClothing false none 2 0 0 clothBody none = none :=
  ⟨C8_clothing_iff.1 sceneAll "Static" 1 none clothBodyRow midState
      ⟨0, some "skin_m01", some "outfit_03", none, none⟩ "rp_aaron_posed_002"
      "0000" (by decide) (by decide) (by decide),
   C8_clothing_iff.2.1 sceneNoClothing "Static" 1 none clothBodyRow midState
      ⟨0, some "skin_m01", some "outfit_03", none, none⟩ "rp_aaron_posed_002"
      "0000" (by decide) (by decide) (by decide) (by decide),
   C8_clothing_iff.2.2.1 sceneAll false none 2 0 0 clothBody none
      ([Ev.bodyTrack 0 false (0, 2), Ev.clothingTrack 0 (0, 2)], none)
      (by decide),
   C8_clothing_iff.2.2.2 sceneNoClothing false none 2 0 0 clothBody none
      (derivedClothingPath "rp_aaron_posed_002" "rp_aaron_posed_002_0000"
        "0000") (by decide) (by decide) (by decide)⟩

/-- A Comment-typed row is skipped. -/
lemma stepRow_comment {sc : Scene} {mv : String} {n : Nat} {next : Option Row}
    {r : Row} {s : RunState} (hc : r.rtype = "Comment") :
    stepRow sc mv n next r s = s := by
  unfold stepRow
  rw [hc]
  simp

/-- A Body-typed row is handled by the Body branch. -/
lemma stepRow_body {sc : Scene} {mv : String} {n : Nat} {next : Option Row}
    {r : Row} {s : RunState} (hb : r.rtype = "Body") :
    stepRow sc mv n next r s = bodyStep sc mv n next r s := by
  unfold stepRow
  rw [hb]
  simp

/-- Unfolding one step of `runAux`. -/
lemma runAux_cons (sc : Scene) (mv : String) (n : Nat) (r : Row)
    (rest : List Row) (s : RunState) :
    runAux sc mv n (r :: rest) s =
      if s.aborted.isSome then s
      else runAux sc mv n rest (stepRow sc mv n rest.head? r s) := rfl

/-- A leading run of Comment rows changes nothing. -/
lemma runAux_comment_prefix (sc : Scene) (mv : String) (n : Nat) :
    ∀ (cs rows : List Row) (s : RunState),
    (∀ c ∈ cs, c.rtype = "Comment") →
    runAux sc mv n (cs ++ rows) s = runAux sc mv n rows s
  | [], _, _, _ => rfl
  | c :: cs', rows, s, hcs => by
    rw [List.cons_append, runAux_cons]
    cases hab : s.aborted.isSome with
    | true =>
      rw [if_pos rfl, runAux_frozen sc mv n rows s hab]
    | false =>
      rw [if_neg (by simp)]
      rw [stepRow_comment (hcs c (by simp))]
      exact runAux_comment_prefix sc mv n cs' rows s
        (fun x hx => hcs x (by simp [hx]))

/-- Unpacking `BodyRowOk`. -/
lemma BodyRowOk_spec {r : Row} (h : BodyRowOk r = true) :
    r.rtype = "Body" ∧
    ∃ k bc sub anim, pyToInt? r.index = some k ∧
      parseBodyConfig r.comment = some bc ∧
      (!bc.texture_clothing_overlay.isSome || bc.texture_body.isSome) = true ∧
      splitBodyName? r.body = some (sub, anim) ∧
      (skelMeshPath sub r.body != "") = true ∧
      (innerAsset (skelMeshPath sub r.body)).isSome = true ∧
      (innerAsset (skelAnimPath sub r.body)).isSome = true := by
  unfold BodyRowOk at h
  cases hbc : parseBodyConfig r.comment with
  | none => rw [hbc] at h; simp at h
  | some bc =>
    rw [hbc] at h
    cases hsn : splitBodyName? r.body with
    | none => rw [hsn] at h; simp at h
    | some p =>
      rw [hsn] at h
      cases p with
      | mk sub anim =>
        simp only [Bool.and_eq_true, beq_iff_eq] at h
        obtain ⟨⟨ht, hk⟩, hov, ⟨h1, h2⟩, h3⟩ := h
        obtain ⟨k, hk2⟩ := Option.isSome_iff_exists.mp hk
        exact ⟨ht, k, bc, sub, anim, hk2, rfl, hov, rfl, h1, h2, h3⟩

/-- Unpacking `GroupRowOk`. -/
lemma GroupRowOk_spec {r : Row} (h : GroupRowOk r = true) :
    r.rtype = "Group" ∧ ∃ c, parseGroupConfig r.comment = some c := by
  unfold GroupRowOk at h
  simp only [Bool.and_eq_true, beq_iff_eq, Option.isSome_iff_exists] at h
  exact h

/-- A Group row that parses opens a fresh sequence context. -/
lemma groupStep_ok (s : RunState) {r : Row} {c : GroupCfg}
    (hc : parseGroupConfig r.comment = some c) :
    (groupStep r s).aborted = s.aborted ∧
    (groupStep r s).sequence_name.isSome = true ∧
    (groupStep r s).camera_pose.isSome = true ∧
    (groupStep r s).sequence_bodies = [] ∧
    (groupStep r s).built = s.built := by
  unfold groupStep
  rw [hc]
  simp

/-- Structure of a Body chunk: nonempty, all Body rows, and the following
rows start with a non-Body row when present. -/
lemma BodyChunk_shape {n : Nat} : ∀ {bs rest : List Row},
    BodyChunk n bs rest →
    bs ≠ [] ∧ (∀ b ∈ bs, BodyRowOk b = true) ∧
    (rest = [] ∨ ∃ nr tail, rest = nr :: tail ∧ nr.rtype ≠ "Body") := by
  intro bs rest h
  induction h with
  | last_eof b hb hidx => exact ⟨by simp, by simp [hb], Or.inl rfl⟩
  | last_next b nr tail hb hidx hnr =>
    exact ⟨by simp, by simp [hb], Or.inr ⟨nr, tail, rfl, hnr⟩⟩
  | cons b bs' rest' hb hidx hch ih =>
    exact ⟨by simp, by
      intro x hx
      rcases List.mem_cons.mp hx with hx | hx
      · subst hx; exact hb
      · exact ih.2.1 x hx, ih.2.2⟩

/-- `takeWhile`/`dropWhile` over a run of satisfying elements followed by
a stopper. -/
lemma takeWhile_dropWhile_split {p : Row → Bool} :
    ∀ (bs rest : List Row), (∀ b ∈ bs, p b = true) →
    (rest = [] ∨ ∃ nr tail, rest = nr :: tail ∧ p nr = false) →
    (bs ++ rest).takeWhile p = bs ∧ (bs ++ rest).dropWhile p = rest
  | [], rest, _, hrest => by
    rcases hrest with h | ⟨nr, tail, h, hnr⟩
    · subst h; simp
    · subst h
      simp [List.takeWhile_cons, List.dropWhile_cons, hnr]
  | b :: bs', rest, hbs, hrest => by
    have hb : p b = true := hbs b (by simp)
    have ih := takeWhile_dropWhile_split bs' rest
      (fun x hx => hbs x (by simp [hx])) hrest
    simp only [List.cons_append, List.takeWhile_cons, List.dropWhile_cons, hb,
      if_true]
    exact ⟨by rw [ih.1], by rw [ih.2]⟩

/-- `bodySegments` ignores a leading non-Group row. -/
lemma bodySegments_skip {r : Row} (h : r.rtype ≠ "Group") (rest : List Row) :
    bodySegments (r :: rest) = bodySegments rest := by
  rw [bodySegments]
  simp [h]

/-- `bodySegments` of a Group block. -/
lemma bodySegments_block {g : Row} (hg : g.rtype = "Group")
    {bs rest : List Row} (hbs : ∀ b ∈ bs, b.rtype = "Body")
    (hrest : rest = [] ∨ ∃ nr tail, rest = nr :: tail ∧ nr.rtype ≠ "Body") :
    bodySegments (g :: (bs ++ rest)) = bs.length :: bodySegments rest := by
  rw [bodySegments]
  have hsplit := takeWhile_dropWhile_split (p := fun r => r.rtype == "Body")
    bs rest (fun b hb => by simp [hbs b hb])
    (by
      rcases hrest with h | ⟨nr, tail, h, hnr⟩
      · exact Or.inl h
      · exact Or.inr ⟨nr, tail, h, by simp [hnr]⟩)
  simp only [hg, takeBodies, dropBodies, hsplit.1, hsplit.2]
  simp

/-- The all-assets scene answers every registry query positively. -/
lemma sceneAll_loads (p : String) : sceneAll.loads p = true := rfl

lemma sceneAll_exists (p : String) : sceneAll.assetExists p = true := rfl

/-- Under the all-assets scene the source resolution always succeeds for
`Static` camera movement. -/
lemma resolveSource_all (hdri : Option String) (tpl : String) :
    (resolveSource sceneAll hdri "Static" tpl).isSome = true := by
  cases hdri with
  | none => simp [resolveSource]
  | some h => simp [resolveSource, sceneAll]

/-- `Static` camera movement never takes the root binding from the
template. -/
lemma cameraSetup_static_snd (pov : Bool) (cp : CameraPose) (hfov : Option ℚ) :
    (cameraSetup pov "Static" cp hfov).2 = false := by
  cases pov <;> rfl

/-- With the camera-root parent present and no template root binding, the
camera-root override never fails. -/
lemma cameraRootStep_all (yaw : Option ℚ) (loc : Option (ℚ × ℚ × ℚ)) :
    (cameraRootStep sceneAll false yaw loc).isSome = true := by
  unfold cameraRootStep
  repeat' split
  all_goals simp_all [sceneAll]

/-- The rig step under the all-assets scene: with well-formed skeletal
paths, a rig binding is guaranteed after body 0 and preserved
afterwards. -/
lemma povRigStep_all (pov : Bool) (i : Nat) (b : SequenceBody)
    (rig : Option Unit) (hb : pov = true → rigPathsOk b = true)
    (hrig : pov = true → rig = some () ∨ (i = 0 ∧ rig = none)) :
    ∃ evs, povRigStep sceneAll pov i b rig =
      (evs, if pov then some () else rig) := by
  cases pov with
  | false => exact ⟨[], by simp [povRigStep]⟩
  | true =>
    have hrp := hb rfl
    cases hsm : b.skeletal_mesh_path with
    | none => rw [rigPathsOk, hsm] at hrp; simp at hrp
    | some smp =>
      cases hsa : b.skeletal_animation_path with
      | none => rw [rigPathsOk, hsm, hsa] at hrp; simp at hrp
      | some sap =>
        rw [rigPathsOk, hsm, hsa] at hrp
        simp only [Bool.and_eq_true, bne_iff_ne, ne_eq] at hrp
        obtain ⟨⟨hne, hia⟩, hia2⟩ := hrp
        obtain ⟨ma, hma⟩ := Option.isSome_iff_exists.mp hia
        obtain ⟨aa, haa⟩ := Option.isSome_iff_exists.mp hia2
        cases hi : i == 0 with
        | true =>
          refine ⟨[.rigSpawn i], ?_⟩
          simp [povRigStep, hi, hsm, hsa, hma, haa, hne, sceneAll]
        | false =>
          have hrg : rig = some () := by
            rcases hrig rfl with h | ⟨h0, _⟩
            · exact h
            · subst h0; simp at hi
          exact ⟨[], by simp [povRigStep, hi, hrg]⟩

/-- The hair step under the all-assets scene succeeds whenever a hair
path comes with its animation reference. -/
lemma hairStep_all (i : Nat) (astart aend : Int) (b : SequenceBody)
    (h2 : (!b.hair_path.isSome || b.animation_path.isSome) = true) :
    ∃ evs, hairStep sceneAll i astart aend b = some evs := by
  cases hhp : b.hair_path with
  | none => exact ⟨[], by simp [hairStep, hhp]⟩
  | some hp =>
    have ha : b.animation_path.isSome = true := by
      rw [hhp] at h2; simpa using h2
    obtain ⟨ap, hap⟩ := Option.isSome_iff_exists.mp ha
    exact ⟨[.hairAttach i "head" (astart, aend)],
      by simp [hairStep, hhp, hap, sceneAll]⟩

/-- The POV camera block succeeds once the rig invariant holds. -/
lemma povBlockStep_all (pov : Bool) (rig : Option Unit) (view : Option Int)
    (yaw0 : ℚ) (fr : Int) :
    ∃ evs, povBlockStep pov (if pov then some () else rig) view yaw0 fr =
      some evs := by
  cases pov with
  | false => exact ⟨[], by simp [povBlockStep]⟩
  | true =>
    exact ⟨[.povCameraSpawn yaw0 (pov_rotation_offset view) "head"
      (-WARMUP_FRAMES, fr), .cameraCutRetarget], by simp [povBlockStep]⟩

/-- One body-loop iteration under the all-assets scene succeeds for a
well-formed body, and establishes the rig invariant. -/
lemma processBody_ok (pov : Bool) (view : Option Int) (sf : Int) (yaw0 : ℚ)
    (i : Nat) (b : SequenceBody) (rig : Option Unit)
    (hb : BodyOkB pov b = true)
    (hrig : pov = true → rig = some () ∨ (i = 0 ∧ rig = none)) :
    ∃ evs, processBody sceneAll pov view sf yaw0 i b rig =
      some (evs, if pov then some () else rig) := by
  have hb' := hb
  unfold BodyOkB at hb'
  simp only [Bool.and_eq_true] at hb'
  obtain ⟨⟨h1, h2⟩, h3⟩ := hb'
  have hrp : pov = true → rigPathsOk b = true := by
    intro hp; rw [hp] at h3; simpa using h3
  obtain ⟨rigEvs, hre⟩ := povRigStep_all pov i b rig hrp hrig
  obtain ⟨hairEvs, hhe⟩ := hairStep_all i (-b.start_frame) sf b h2
  obtain ⟨povEvs, hpe⟩ := povBlockStep_all pov rig view yaw0 sf
  cases hov : b.texture_clothing_overlay with
  | some o =>
    cases htb : b.texture_body with
    | none => rw [hov, htb] at h1; simp at h1
    | some tb =>
      refine ⟨[.bodyTrack i true (-b.start_frame, sf)] ++ rigEvs ++ hairEvs
        ++ povEvs, ?_⟩
      simp [processBody, sceneAll_loads, hov, htb, hre, hhe, hpe]
  | none =>
    cases htb : b.texture_body with
    | none =>
      cases hcp : b.clothing_path with
      | none =>
        refine ⟨[.bodyTrack i false (-b.start_frame, sf)] ++ rigEvs ++ hairEvs
          ++ povEvs, ?_⟩
        simp [processBody, sceneAll_loads, hov, htb, hcp, hre, hhe, hpe]
      | some cp =>
        cases htc : b.texture_clothing with
        | none =>
          refine ⟨[.bodyTrack i false (-b.start_frame, sf)] ++ rigEvs
            ++ [.clothingTrack i (-b.start_frame, sf)] ++ hairEvs
            ++ povEvs, ?_⟩
          simp [processBody, sceneAll_loads, hov, htb, hcp, htc, hre, hhe, hpe]
        | some tc =>
          refine ⟨[.bodyTrack i false (-b.start_frame, sf)] ++ rigEvs
            ++ [.clothingTrack i (-b.start_frame, sf)] ++ hairEvs
            ++ povEvs, ?_⟩
          simp [processBody, sceneAll_loads, hov, htb, hcp, htc, hre, hhe, hpe]
    | some tb =>
      cases hcp : b.clothing_path with
      | none =>
        refine ⟨[.bodyTrack i false (-b.start_frame, sf)] ++ rigEvs ++ hairEvs
          ++ povEvs, ?_⟩
        simp [processBody, sceneAll_loads, hov, htb, hcp, hre, hhe, hpe]
      | some cp =>
        cases htc : b.texture_clothing with
        | none =>
          refine ⟨[.bodyTrack i false (-b.start_frame, sf)] ++ rigEvs
            ++ [.clothingTrack i (-b.start_frame, sf)] ++ hairEvs
            ++ povEvs, ?_⟩
          simp [processBody, sceneAll_loads, hov, htb, hcp, htc, hre, hhe, hpe]
        | some tc =>
          refine ⟨[.bodyTrack i false (-b.start_frame, sf)] ++ rigEvs
            ++ [.clothingTrack i (-b.start_frame, sf)] ++ hairEvs
            ++ povEvs, ?_⟩
          simp [processBody, sceneAll_loads, hov, htb, hcp, htc, hre, hhe, hpe]

/-- The whole body loop under the all-assets scene succeeds on
well-formed bodies, given the rig invariant. -/
lemma processBodies_ok (pov : Bool) (view : Option Int) (sf : Int) (yaw0 : ℚ) :
    ∀ (bodies : List SequenceBody) (i : Nat) (rig : Option Unit),
    (∀ b ∈ bodies, BodyOkB pov b = true) →
    (pov = true → rig = some () ∨ (i = 0 ∧ rig = none)) →
    (processBodies sceneAll pov view sf yaw0 bodies i rig).isSome = true
  | [], _, _, _, _ => rfl
  | b :: rest, i, rig, hbs, hrig => by
    obtain ⟨evs, he⟩ :=
      processBody_ok pov view sf yaw0 i b rig (hbs b (by simp)) hrig
    have ih := processBodies_ok pov view sf yaw0 rest (i + 1)
      (if pov then some () else rig) (fun x hx => hbs x (by simp [hx]))
      (fun hp => Or.inl (by rw [hp]; simp))
    simp only [processBodies, he]
    cases hrec : processBodies sceneAll pov view sf yaw0 rest (i + 1)
        (if pov then some () else rig) with
    | none => rw [hrec] at ih; simp at ih
    | some pr =>
      obtain ⟨e2, rf⟩ := pr
      simp

/-- Under the all-assets scene with `Static` camera movement,
`add_level_sequence` succeeds on any list of well-formed bodies. -/
lemma add_ok (nm : String) (cp : CameraPose) (bodies : List SequenceBody)
    (frames : Int) (hdri : Option String) (hfov : Option ℚ)
    (yaw : Option ℚ) (loc : Option (ℚ × ℚ × ℚ)) (pov : Bool)
    (view : Option Int) (tpl : String)
    (hbs : ∀ b ∈ bodies, BodyOkB pov b = true) :
    (add_level_sequence sceneAll nm cp bodies frames hdri hfov "Static"
      yaw loc pov view tpl).isSome = true := by
  obtain ⟨src, hsrc⟩ := Option.isSome_iff_exists.mp (resolveSource_all hdri tpl)
  obtain ⟨rootEvs, hroot⟩ :=
    Option.isSome_iff_exists.mp (cameraRootStep_all yaw loc)
  have hpb := processBodies_ok pov view frames
    (((bodies.head?).map (fun b => b.yaw)).getD 0) bodies 0 none hbs
    (fun _ => Or.inr ⟨rfl, rfl⟩)
  obtain ⟨pr, hpr⟩ := Option.isSome_iff_exists.mp hpb
  obtain ⟨bodyEvs, rigF⟩ := pr
  simp only [add_level_sequence, hsrc, cameraSetup_static_snd, hroot, hpr]
  simp

/-- Flushing with a sequence context of well-formed bodies appends one
built sequence holding exactly the accumulated bodies. -/
lemma flushSeq_ok {s : RunState} {nm : String} {cp : CameraPose}
    (hnm : s.sequence_name = some nm) (hcp : s.camera_pose = some cp)
    (hbs : ∀ b ∈ s.sequence_bodies, BodyOkB s.pov_camera b = true) :
    ∃ B, B.bodies = s.sequence_bodies ∧
      flushSeq sceneAll "Static" s = { s with built := s.built ++ [B] } := by
  have h := add_ok nm cp s.sequence_bodies s.sequence_frames s.hdri_name
    s.camera_hfov s.cameraroot_yaw s.cameraroot_location s.pov_camera
    s.view_id s.hdriTemplate hbs
  obtain ⟨tl, htl⟩ := Option.isSome_iff_exists.mp h
  refine ⟨⟨nm, s.sequence_bodies, s.sequence_frames, s.cameraroot_location, tl⟩,
    rfl, ?_⟩
  simp only [flushSeq, hnm, hcp, htl]

/-- The Body branch on a parsing row, before the end-of-sequence check:
one well-formed `SequenceBody` is appended, and the row either flushes
(final index, or non-Body successor), aborts on a missing successor, or
just accumulates. -/
lemma bodyStep_reach (n : Nat) (next : Option Row) (r : Row) (s : RunState)
    {k : Int} {bc : BodyCfg} {sub anim : String}
    (hk : pyToInt? r.index = some k)
    (hbc : parseBodyConfig r.comment = some bc)
    (hsn : splitBodyName? r.body = some (sub, anim))
    (hov : (!bc.texture_clothing_overlay.isSome || bc.texture_body.isSome) = true)
    (h1 : (skelMeshPath sub r.body != "") = true)
    (h2 : (innerAsset (skelMeshPath sub r.body)).isSome = true)
    (h3 : (innerAsset (skelAnimPath sub r.body)).isSome = true) :
    ∃ b tpl rb s2, BodyOkB s.pov_camera b = true ∧
      s2 = { s with hdriTemplate := tpl, resolvedBodies := rb,
                    sequence_bodies := s.sequence_bodies ++ [b] } ∧
      bodyStep sceneAll "Static" n next r s =
        (if k ≥ (n : Int) - 1 then flushSeq sceneAll "Static" s2
         else match next with
           | none => { s2 with aborted := some RunError.indexError }
           | some nr =>
             if nr.rtype ≠ "Body" then flushSeq sceneAll "Static" s2
             else s2) := by
  cases htc : bc.texture_clothing with
  | some tc =>
    refine Exists.intro
      { subject := sub, body_path := bodyAssetPath sub r.body,
        clothing_path := some (derivedClothingPath sub r.body anim),
        hair_path := Option.map hairAssetPath bc.hair,
        animation_path := if (Option.map hairAssetPath bc.hair).isSome then
          some (skelAnimPath sub r.body) else none,
        x := r.x, y := r.y, z := r.z, yaw := r.yaw, pitch := r.pitch,
        roll := r.roll, start_frame := bc.start_frame,
        texture_body := bc.texture_body, texture_clothing := some tc,
        texture_clothing_overlay := bc.texture_clothing_overlay,
        skeletal_mesh_path := if s.pov_camera then
          some (skelMeshPath sub r.body) else none,
        skeletal_animation_path := if s.pov_camera then
          some (skelAnimPath sub r.body) else none }
      ⟨if bc.hair.isSome && !pyEndsWith s.hdriTemplate "_Hair" then
          s.hdriTemplate ++ "_Hair" else s.hdriTemplate,
        s.resolvedBodies ++ [bodyAssetPath sub r.body], _, ?_, rfl, ?_⟩
    · have hov2 : bc.texture_clothing_overlay = none ∨
          bc.texture_body.isSome = true := by
        cases hy : bc.texture_clothing_overlay with
        | none => exact Or.inl rfl
        | some z => rw [hy] at hov; exact Or.inr (by simpa using hov)
      rcases hov2 with hov2 | hov2 <;>
        cases hpov : s.pov_camera <;> cases hh : bc.hair <;>
          simp [BodyOkB, rigPathsOk, h1, h2, h3, hov2]
    · simp only [bodyStep, hk, hbc, hsn, sceneAll_exists, Bool.not_true,
        Bool.false_eq_true, if_false, htc, Option.isSome_some, if_true]
  | none =>
    refine Exists.intro
      { subject := sub, body_path := bodyAssetPath sub r.body,
        clothing_path := none,
        hair_path := Option.map hairAssetPath bc.hair,
        animation_path := if (Option.map hairAssetPath bc.hair).isSome then
          some (skelAnimPath sub r.body) else none,
        x := r.x, y := r.y, z := r.z, yaw := r.yaw, pitch := r.pitch,
        roll := r.roll, start_frame := bc.start_frame,
        texture_body := bc.texture_body, texture_clothing := none,
        texture_clothing_overlay := bc.texture_clothing_overlay,
        skeletal_mesh_path := if s.pov_camera then
          some (skelMeshPath sub r.body) else none,
        skeletal_animation_path := if s.pov_camera then
          some (skelAnimPath sub r.body) else none }
      ⟨if bc.hair.isSome && !pyEndsWith s.hdriTemplate "_Hair" then
          s.hdriTemplate ++ "_Hair" else s.hdriTemplate,
        s.resolvedBodies ++ [bodyAssetPath sub r.body], _, ?_, rfl, ?_⟩
    · have hov2 : bc.texture_clothing_overlay = none ∨
          bc.texture_body.isSome = true := by
        cases hy : bc.texture_clothing_overlay with
        | none => exact Or.inl rfl
        | some z => rw [hy] at hov; exact Or.inr (by simpa using hov)
      rcases hov2 with hov2 | hov2 <;>
        cases hpov : s.pov_camera <;> cases hh : bc.hair <;>
          simp [BodyOkB, rigPathsOk, h1, h2, h3, hov2]
    · simp only [bodyStep, hk, hbc, hsn, sceneAll_exists, Bool.not_true,
        Bool.false_eq_true, if_false, htc, Option.isSome_none]

/-- A non-final Body row followed by another Body row only accumulates:
the well-formed new body is appended and everything else but the
template and the query trace is kept. -/
lemma bodyStep_mid (s : RunState) {n : Nat} {nr r : Row}
    (hb : BodyRowOk r = true) (hidx : IdxSmall n r = true)
    (hnr : nr.rtype = "Body") :
    ∃ b tpl rb, BodyOkB s.pov_camera b = true ∧
      bodyStep sceneAll "Static" n (some nr) r s =
        { s with hdriTemplate := tpl, resolvedBodies := rb,
                 sequence_bodies := s.sequence_bodies ++ [b] } := by
  obtain ⟨ht, k, bc, sub, anim, hk, hbc, hov, hsn, h1, h2, h3⟩ :=
    BodyRowOk_spec hb
  obtain ⟨b, tpl, rb, s2, hok, hs2, heq⟩ :=
    bodyStep_reach n (some nr) r s hk hbc hsn hov h1 h2 h3
  have hks : ¬(k ≥ (n : Int) - 1) := by
    simp only [IdxSmall, hk] at hidx
    have := of_decide_eq_true hidx
    omega
  rw [if_neg hks] at heq
  have heqr : bodyStep sceneAll "Static" n (some nr) r s =
      (if nr.rtype ≠ "Body" then flushSeq sceneAll "Static" s2 else s2) := heq
  rw [if_neg (not_not_intro hnr)] at heqr
  exact ⟨b, tpl, rb, hok, heqr.trans hs2⟩

/-- A flushing Body row (final index, or non-Body successor): the body
is appended and the sequence context is flushed into exactly one new
built sequence holding the accumulated bodies. -/
lemma bodyStep_last (next : Option Row) {n : Nat} {r : Row} {s : RunState}
    {nm : String} {cp : CameraPose}
    (hb : BodyRowOk r = true)
    (hfl : IdxLast n r = true ∨ (IdxSmall n r = true ∧
      ∃ nr, next = some nr ∧ nr.rtype ≠ "Body"))
    (hnm : s.sequence_name = some nm) (hcp : s.camera_pose = some cp)
    (hbs : ∀ x ∈ s.sequence_bodies, BodyOkB s.pov_camera x = true) :
    ∃ b B tpl rb, B.bodies = s.sequence_bodies ++ [b] ∧
      bodyStep sceneAll "Static" n next r s =
        { s with hdriTemplate := tpl, resolvedBodies := rb,
                 sequence_bodies := s.sequence_bodies ++ [b],
                 built := s.built ++ [B] } := by
  obtain ⟨ht, k, bc, sub, anim, hk, hbc, hov, hsn, h1, h2, h3⟩ :=
    BodyRowOk_spec hb
  obtain ⟨b, tpl, rb, s2, hok, hs2, heq⟩ :=
    bodyStep_reach n next r s hk hbc hsn hov h1 h2 h3
  have heq2 : bodyStep sceneAll "Static" n next r s =
      flushSeq sceneAll "Static" s2 := by
    rcases hfl with hlast | ⟨hsmall, nr, hnext, hnr⟩
    · have hkl : k ≥ (n : Int) - 1 := by
        simp only [IdxLast, hk] at hlast
        exact of_decide_eq_true hlast
      rw [if_pos hkl] at heq
      exact heq
    · have hks : ¬(k ≥ (n : Int) - 1) := by
        simp only [IdxSmall, hk] at hsmall
        have := of_decide_eq_true hsmall
        omega
      subst hnext
      rw [if_neg hks] at heq
      dsimp only at heq
      rw [if_pos hnr] at heq
      exact heq
  have hnm2 : s2.sequence_name = some nm := by rw [hs2]; exact hnm
  have hcp2 : s2.camera_pose = some cp := by rw [hs2]; exact hcp
  have hbs2 : ∀ x ∈ s2.sequence_bodies, BodyOkB s2.pov_camera x = true := by
    rw [hs2]
    show ∀ x ∈ s.sequence_bodies ++ [b], BodyOkB s.pov_camera x = true
    intro x hx
    rcases List.mem_append.mp hx with h | h
    · exact hbs x h
    · have := List.mem_singleton.mp h
      subst this
      exact hok
  obtain ⟨B, hBb, hfe⟩ := flushSeq_ok hnm2 hcp2 hbs2
  refine ⟨b, B, tpl, rb, ?_, ?_⟩
  · rw [hBb, hs2]
  · rw [heq2, hfe, hs2]

/-- `runAux` on the empty row stream. -/
lemma runAux_nil (sc : Scene) (mv : String) (n : Nat) (s : RunState) :
    runAux sc mv n [] s = s := rfl

/-- A well-formed Body chunk: the scan walks it to its end, flushing the
accumulated bodies (plus the chunk's own) into exactly one new built
sequence. -/
lemma run_chunk {n : Nat} {bs rest : List Row} (hch : BodyChunk n bs rest) :
    ∀ (s : RunState) (nm : String) (cp : CameraPose),
    s.aborted = none → s.sequence_name = some nm → s.camera_pose = some cp →
    (∀ x ∈ s.sequence_bodies, BodyOkB s.pov_camera x = true) →
    ∃ s₂ B, runAux sceneAll "Static" n (bs ++ rest) s =
        runAux sceneAll "Static" n rest s₂ ∧
      s₂.aborted = none ∧ s₂.built = s.built ++ [B] ∧
      B.bodies.length = s.sequence_bodies.length + bs.length := by
  induction hch with
  | last_eof b hb hidx =>
    intro s nm cp hab hnm hcp hbs
    obtain ⟨b', B, tpl, rb, hBb, heq⟩ :=
      bodyStep_last none hb (Or.inl hidx) hnm hcp hbs
    refine Exists.intro
      { s with
          hdriTemplate := tpl, resolvedBodies := rb,
          sequence_bodies := s.sequence_bodies ++ [b'],
          built := s.built ++ [B] }
      (Exists.intro B ⟨?_, hab, rfl, ?_⟩)
    · rw [List.append_nil, runAux_nil, runAux_cons, if_neg (by simp [hab]),
        runAux_nil, stepRow_body (BodyRowOk_spec hb).1]
      exact heq
    · simp [hBb]
  | last_next b nr tail hb hidx hnr =>
    intro s nm cp hab hnm hcp hbs
    obtain ⟨b', B, tpl, rb, hBb, heq⟩ :=
      bodyStep_last (some nr) hb (Or.inr ⟨hidx, nr, rfl, hnr⟩) hnm hcp hbs
    refine Exists.intro
      { s with
          hdriTemplate := tpl, resolvedBodies := rb,
          sequence_bodies := s.sequence_bodies ++ [b'],
          built := s.built ++ [B] }
      (Exists.intro B ⟨?_, hab, rfl, ?_⟩)
    · rw [List.singleton_append, runAux_cons, if_neg (by simp [hab]),
        List.head?_cons, stepRow_body (BodyRowOk_spec hb).1, heq]
    · simp [hBb]
  | cons b bs' rest' hb hidx hch2 ih =>
    intro s nm cp hab hnm hcp hbs
    obtain ⟨hne, hall, _⟩ := BodyChunk_shape hch2
    cases bs' with
    | nil => exact absurd rfl hne
    | cons b₂ bs'' =>
      have hb₂ : BodyRowOk b₂ = true := hall b₂ (by simp)
      obtain ⟨bA, tpl, rb, hokA, heq⟩ :=
        bodyStep_mid s hb hidx (BodyRowOk_spec hb₂).1
      obtain ⟨s₂, B, hrun, hab₂, hbuilt₂, hlen⟩ :=
        ih
          { s with
              hdriTemplate := tpl, resolvedBodies := rb,
              sequence_bodies := s.sequence_bodies ++ [bA] }
          nm cp hab hnm hcp
          (by
            intro x hx
            rcases List.mem_append.mp hx with h | h
            · exact hbs x h
            · have h2 := List.mem_singleton.mp h
              subst h2
              exact hokA)
      refine ⟨s₂, B, ?_, hab₂, ?_, ?_⟩
      · rw [List.cons_append, runAux_cons, if_neg (by simp [hab]),
          show ((b₂ :: bs'') ++ rest').head? = some b₂ from rfl,
          stepRow_body (BodyRowOk_spec hb).1, heq]
        exact hrun
      · rw [hbuilt₂]
      · rw [hlen]
        show (s.sequence_bodies ++ [bA]).length + (b₂ :: bs'').length =
          s.sequence_bodies.length + (b :: b₂ :: bs'').length
        simp [List.length_append]
        omega
  
/-- A well-formed run of Group blocks: the scan never aborts and builds
one sequence per block, holding as many bodies as the block has Body
rows. -/
lemma run_blocks {n : Nat} {blocks : List Row} (hvb : ValidBlocks n blocks) :
    ∀ s : RunState, s.aborted = none →
    (runAux sceneAll "Static" n blocks s).aborted = none ∧
    (runAux sceneAll "Static" n blocks s).built.map
        (fun bq => bq.bodies.length) =
      s.built.map (fun bq => bq.bodies.length) ++ bodySegments blocks := by
  induction hvb with
  | nil => intro s hab; simpa [runAux_nil, bodySegments] using hab
  | block g bs rest hg hch hvb2 ih =>
    intro s hab
    obtain ⟨hgt, c, hc⟩ := GroupRowOk_spec hg
    obtain ⟨habg, hsn1, hcp1, hsb1, hbu1⟩ := groupStep_ok s hc
    obtain ⟨nm, hnm1⟩ := Option.isSome_iff_exists.mp hsn1
    obtain ⟨cpv, hcpv⟩ := Option.isSome_iff_exists.mp hcp1
    obtain ⟨s₂, B, hrun, hab₂, hbuilt₂, hlen⟩ :=
      run_chunk hch (groupStep g s) nm cpv (by rw [habg]; exact hab)
        hnm1 hcpv (by rw [hsb1]; intro x hx; simp at hx)
    have hstep : runAux sceneAll "Static" n (g :: (bs ++ rest)) s =
        runAux sceneAll "Static" n rest s₂ := by
      rw [runAux_cons, if_neg (by simp [hab]), stepRow_group hgt, hrun]
    obtain ⟨habF, hmapF⟩ := ih s₂ hab₂
    constructor
    · rw [hstep]; exact habF
    · rw [hstep, hmapF, hbuilt₂, hbu1,
        bodySegments_block hgt
          (fun x hx => (BodyRowOk_spec ((BodyChunk_shape hch).2.1 x hx)).1)
          (BodyChunk_shape hch).2.2]
      simp [List.map_append, hlen, hsb1]

/-- Leading Comment rows do not contribute Group segments. -/
lemma bodySegments_comments :
    ∀ (cs l : List Row), (∀ c ∈ cs, c.rtype = "Comment") →
    bodySegments (cs ++ l) = bodySegments l
  | [], _, _ => rfl
  | c :: cs', l, hcs => by
    rw [List.cons_append,
      bodySegments_skip (by rw [hcs c (by simp)]; decide) (cs' ++ l)]
    exact bodySegments_comments cs' l (fun x hx => hcs x (by simp [hx]))

/-- Leading Comment rows contribute no Group rows to the filter. -/
lemma filter_comments :
    ∀ (cs l : List Row), (∀ c ∈ cs, c.rtype = "Comment") →
    (cs ++ l).filter (fun r => r.rtype == "Group") =
      l.filter (fun r => r.rtype == "Group")
  | [], _, _ => rfl
  | c :: cs', l, hcs => by
    rw [List.cons_append, List.filter_cons_of_neg (by simp [hcs c (by simp)])]
    exact filter_comments cs' l (fun x hx => hcs x (by simp [hx]))

/-- Over a well-formed tail, the segment list has one entry per Group
row. -/
lemma validBlocks_filter {n : Nat} {blocks : List Row}
    (hvb : ValidBlocks n blocks) :
    (bodySegments blocks).length =
      (blocks.filter (fun r => r.rtype == "Group")).length := by
  induction hvb with
  | nil => simp [bodySegments]
  | block g bs rest hg hch hvb2 ih =>
    have hgt := (GroupRowOk_spec hg).1
    have hbody := fun x hx => (BodyRowOk_spec ((BodyChunk_shape hch).2.1 x hx)).1
    rw [bodySegments_block hgt hbody (BodyChunk_shape hch).2.2,
      List.filter_cons_of_pos (by simp [hgt]), List.filter_append]
    have hbs : bs.filter (fun r => r.rtype == "Group") = [] := by
      rw [List.filter_eq_nil_iff]
      intro x hx
      simp [hbody x hx]
    rw [hbs]
    simp [ih]

/-- C1: For every `Group` row of a valid CSV (leading comments, then
Group blocks whose `Index` cells carry the global data-row position, as
the repository's own CSV producers write them), the scan — run against a
registry where every asset exists, with `Static` camera movement —
builds exactly one level sequence, and that sequence contains exactly
the Body rows between the Group row and the next Group row (or the end
of the file). -/
theorem C1_sequences_per_group (rows : List Row) (h : ValidCsv rows) :
    (runCsv sceneAll "Static" rows).aborted = none ∧
    (runCsv sceneAll "Static" rows).built.map (fun bq => bq.bodies.length) =
      bodySegments rows ∧
    (runCsv sceneAll "Static" rows).built.length =
      (rows.filter (fun r => r.rtype == "Group")).length := by
  unfold ValidCsv at h
  obtain ⟨cs, blocks, hrows, hcs, hvb⟩ := h
  subst hrows
  have hpre : runCsv sceneAll "Static" (cs ++ blocks) =
      runAux sceneAll "Static" (cs ++ blocks).length blocks initState := by
    unfold runCsv
    exact runAux_comment_prefix sceneAll "Static" (cs ++ blocks).length
      cs blocks initState hcs
  obtain ⟨habF, hmapF⟩ := run_blocks hvb initState rfl
  refine ⟨?_, ?_, ?_⟩
  · rw [hpre]; exact habF
  · rw [hpre, hmapF, bodySegments_comments cs blocks hcs]
    simp [initState]
  · rw [hpre]
    have hlen : (runAux sceneAll "Static" (cs ++ blocks).length blocks
        initState).built.length =
        (bodySegments blocks).length := by
      have := congrArg List.length hmapF
      simpa [initState] using this
    rw [hlen, validBlocks_filter hvb, filter_comments cs blocks hcs]

/-- Witness for C1: a six-row CSV (one comment, a one-Body group, a
two-Body group) is valid, so the scan builds two sequences holding one
and two bodies. -/
theorem C1_sequences_per_group_w :
    ValidCsv wRows ∧
      (runCsv sceneAll "Static" wRows).aborted = none ∧
      (runCsv sceneAll "Static" wRows).built.map
          (fun bq => bq.bodies.length) = bodySegments wRows ∧
      (runCsv sceneAll "Static" wRows).built.length =
        (wRows.filter (fun r => r.rtype == "Group")).length := by
  have hv : ValidCsv wRows := by
    unfold ValidCsv
    refine ⟨[wRow0], [wRow1, wRow2, wRow3, wRow4, wRow5], rfl, by decide, ?_⟩
    exact ValidBlocks.block wRow1 [wRow2] [wRow3, wRow4, wRow5] (by decide)
      (BodyChunk.last_next wRow2 wRow3 [wRow4, wRow5] (by decide) (by decide)
        (by decide))
      (ValidBlocks.block wRow3 [wRow4, wRow5] [] (by decide)
        (BodyChunk.cons wRow4 [wRow5] [] (by decide) (by decide)
          (BodyChunk.last_eof wRow5 (by decide) (by decide)))
        ValidBlocks.nil)
  exact ⟨hv, C1_sequences_per_group wRows hv⟩
